import Mathlib

/-!
Verification of the Schema.org JSON-LD validation engine
(src/services/schemaValidationService.ts) against its specification.

The engine is shallowly embedded: JavaScript values produced by
JSON.parse are modelled by the inductive type `JVal`; JavaScript
property access, truthiness, strict equality and the string/number
coercions the engine relies on are modelled by explicit functions.
A JavaScript exception thrown inside the big try-block of
`validateSchema` is modelled by the `threw` flag of a `Contrib`
(the findings pushed before the throw are kept, exactly as the
mutable arrays of the source keep them).

Modelling notes (fixed, commented at their definitions):
  * JSON.parse itself is not re-implemented; a parsed input is an
    `Option JVal`, `none` standing for a text on which JSON.parse
    throws, `some v` for a text parsing to the value `v`.
  * JavaScript numbers are modelled by `Rat`; string length is the
    Lean codepoint length (JS counts UTF-16 units, identical on the
    ASCII strings all rules and all inputs in this file use).
-/

set_option maxHeartbeats 1000000
set_option maxRecDepth 10000

namespace SchemaValidation

/-- A JavaScript value as produced by JSON.parse. Objects keep their
fields as an association list in insertion order. -/
inductive JVal where
  | jnull : JVal
  | jbool : Bool → JVal
  | jnum : Rat → JVal
  | jstr : String → JVal
  | jarr : List JVal → JVal
  | jobj : List (String × JVal) → JVal

/-- Is the value the JavaScript `null`? Property access on it throws. -/
def isNull : JVal → Bool
  | JVal.jnull => true
  | _ => false

/-- Severity of a finding; source type `'error' | 'warning' | 'info'`. -/
inductive Sev where
  | error : Sev
  | warning : Sev
  | info : Sev
deriving DecidableEq

/-- Source interface `ValidationError`: one finding. -/
structure Finding where
  sev : Sev
  message : String
  path : Option String := none
  suggestion : Option String := none
deriving DecidableEq

/-- Source interface `ValidationResult`. -/
structure ValidationResult where
  isValid : Bool
  errors : List Finding
  warnings : List Finding
  info : List Finding
  score : Int
deriving DecidableEq

/-- JavaScript truthiness of a value: `false`, `0`, `""` and `null`
are falsy, every other JSON-representable value is truthy. -/
def truthy : JVal → Bool
  | JVal.jnull => false
  | JVal.jbool b => b
  | JVal.jnum n => n != 0
  | JVal.jstr s => s != ""
  | JVal.jarr _ => true
  | JVal.jobj _ => true

/-- Truthiness of a possibly-undefined value (`none` = undefined). -/
def truthyO : Option JVal → Bool
  | none => false
  | some v => truthy v

/-- JavaScript property access `v[k]` for the property names the
engine reads; absent keys and non-object receivers give undefined
(`none`). Access on `null` throws in JavaScript: the throwing sites
are modelled explicitly where they occur. -/
def jsGet : JVal → String → Option JVal
  | JVal.jobj fs, k => fs.lookup k
  | _, _ => none

/-!  Structural string utilities. The corresponding core functions
(`String.trim`, `String.toLower`, `String.split`, `String.splitOn`,
`Nat.repr`, ...) are defined through `Substring` machinery or
well-founded recursion; these list-based equivalents are used instead
so that every definition of the development evaluates by kernel
reduction on concrete inputs. -/

/-- Whitespace trim on both ends (String.prototype.trim). -/
def trimStr (s : String) : String :=
  String.mk ((s.toList.dropWhile Char.isWhitespace).reverse.dropWhile
    Char.isWhitespace).reverse

/-- ASCII-adequate lowercasing (String.prototype.toLowerCase). -/
def lowerStr (s : String) : String :=
  String.mk (s.toList.map Char.toLower)

/-- Does `s` start with `pre`? -/
def strStartsWith (s pre : String) : Bool :=
  pre.toList.isPrefixOf s.toList

/-- Does `s` end with `suffix`? -/
def strEndsWith (s suffix : String) : Bool :=
  suffix.toList.reverse.isPrefixOf s.toList.reverse

def splitOnCharAux (sep : Char) : List Char → List Char → List (List Char)
  | [], acc => [acc.reverse]
  | c :: rest, acc =>
      if c == sep then acc.reverse :: splitOnCharAux sep rest []
      else splitOnCharAux sep rest (c :: acc)

/-- Split at a one-character separator (String.prototype.split). -/
def splitOnChar (sep : Char) (s : String) : List String :=
  (splitOnCharAux sep s.toList []).map String.mk

def splitWsAux : List Char → List Char → List String
  | [], acc => [String.mk acc.reverse]
  | c :: rest, acc =>
      if c.isWhitespace then String.mk acc.reverse :: splitWsAux rest []
      else splitWsAux rest (c :: acc)

/-- Split at whitespace characters, keeping empty tokens between
consecutive separators. -/
def splitWs (s : String) : List String :=
  splitWsAux s.toList []

def natDigitsAux : Nat → Nat → List Char
  | 0, _ => []
  | fuel + 1, n =>
      if n = 0 then [] else
        natDigitsAux fuel (n / 10) ++ [Char.ofNat (48 + n % 10)]

/-- Decimal rendering of a natural number. -/
def natRepr (n : Nat) : String :=
  if n = 0 then "0" else String.mk (natDigitsAux (n + 1) n)

/-- Decimal rendering of an integer. -/
def intRepr (n : Int) : String :=
  if n < 0 then "-" ++ natRepr n.natAbs else natRepr n.natAbs

/-- Rendering of a number as a string (JavaScript ToString). Exact for
integers, which is what every coercion site in this development can
meet; non-integer rationals are rendered as numerator/denominator as a
stand-in for the JS double formatting. -/
def ratToString (q : Rat) : String :=
  if q.den = 1 then intRepr q.num
  else intRepr q.num ++ "/" ++ natRepr q.den

mutual

/-- Rendering of one nested value inside an array join; null and
nested structures follow Array.prototype.toString. -/
def jsDeepToString : JVal → String
  | JVal.jnull => "null"
  | JVal.jbool true => "true"
  | JVal.jbool false => "false"
  | JVal.jnum q => ratToString q
  | JVal.jstr s => s
  | JVal.jarr xs => jsArrToString xs
  | JVal.jobj _ => "[object Object]"

/-- Array.prototype.toString: elements joined by commas. -/
def jsArrToString : List JVal → String
  | [] => ""
  | [x] => jsElemToString x
  | x :: y :: rest => jsElemToString x ++ "," ++ jsArrToString (y :: rest)

/-- One array element inside a join: null renders as the empty string. -/
def jsElemToString : JVal → String
  | JVal.jnull => ""
  | v => jsDeepToString v

end

/-- JavaScript ToString of a value, as used by string coercion in
regex tests, template literals and property-key coercion. The
top-level dispatch is non-recursive: only the array case descends (via
`jsArrToString`) into nested values. -/
def jsToString : JVal → String
  | JVal.jnull => "null"
  | JVal.jbool true => "true"
  | JVal.jbool false => "false"
  | JVal.jnum q => ratToString q
  | JVal.jstr s => s
  | JVal.jarr xs => jsArrToString xs
  | JVal.jobj _ => "[object Object]"

/-- ToString of a possibly-undefined value (template-literal coercion). -/
def jsToStringO : Option JVal → String
  | none => "undefined"
  | some v => jsToString v

/-- JavaScript property-key coercion for `SCHEMA_REQUIREMENTS[x]`. -/
def jsIndexKey (o : Option JVal) : String :=
  jsToStringO o

def digitsToNat (cs : List Char) : Nat :=
  cs.foldl (fun a c => a * 10 + (c.toNat - 48)) 0

/-- Decimal string to number, the fragment of JavaScript ToNumber the
engine can hit: optional surrounding whitespace, optional sign, digits
with an optional fraction part. The empty (or all-whitespace) string
is 0; anything else (exponents, hex, Infinity) is out of reach of the
inputs treated here and maps to NaN (`none`). -/
def strToNumber (s : String) : Option Rat :=
  let cs := (trimStr s).toList
  if cs.isEmpty then some 0
  else
    let signed : Rat × List Char :=
      match cs with
      | '-' :: r => (-1, r)
      | '+' :: r => (1, r)
      | r => (1, r)
    let intPart := signed.2.takeWhile Char.isDigit
    let rest := signed.2.dropWhile Char.isDigit
    match rest with
    | [] =>
        if intPart.isEmpty then none
        else some (signed.1 * (digitsToNat intPart : Rat))
    | '.' :: fr =>
        if fr.all Char.isDigit && (!intPart.isEmpty || !fr.isEmpty) then
          some (signed.1 *
            ((digitsToNat intPart : Rat) +
              (digitsToNat fr : Rat) / ((10 : Rat) ^ fr.length)))
        else none
    | _ => none

/-- JavaScript ToNumber of a value (`none` = NaN); objects and arrays
go through their ToString first. -/
def jsToNumber : JVal → Option Rat
  | JVal.jnull => some 0
  | JVal.jbool b => some (if b then 1 else 0)
  | JVal.jnum q => some q
  | JVal.jstr s => strToNumber s
  | JVal.jarr xs => strToNumber (jsToString (JVal.jarr xs))
  | JVal.jobj _ => none

/-- JavaScript `x < q` for a numeric literal `q`: numeric coercion,
NaN compares false. -/
def jsLtNum (v : JVal) (q : Rat) : Bool :=
  match jsToNumber v with
  | some x => x < q
  | none => false

/-- JavaScript `x > q` for a numeric literal `q`. -/
def jsGtNum (v : JVal) (q : Rat) : Bool :=
  match jsToNumber v with
  | some x => q < x
  | none => false

/-- JavaScript strict inequality `x !== q` against a number literal:
no coercion, values of another runtime type are always unequal. -/
def jsStrictNeNum (v : JVal) (q : Rat) : Bool :=
  match v with
  | JVal.jnum m => m != q
  | _ => true

/-- JavaScript strict inequality `x !== s` against a string literal. -/
def jsStrictNeStr (v : Option JVal) (t : String) : Bool :=
  match v with
  | some (JVal.jstr s) => s != t
  | _ => true

/-- JavaScript strict equality between two parsed values. Primitives
compare by value; two distinct parsed objects or arrays are distinct
references, hence strictly unequal. -/
def jsStrictEq (a b : JVal) : Bool :=
  match a, b with
  | JVal.jnull, JVal.jnull => true
  | JVal.jbool x, JVal.jbool y => x == y
  | JVal.jnum x, JVal.jnum y => x == y
  | JVal.jstr x, JVal.jstr y => x == y
  | _, _ => false

/-- The `.length` read the engine performs: defined for strings
(codepoint count, see header note) and arrays, undefined otherwise. -/
def jsLengthO : Option JVal → Option Nat
  | some (JVal.jstr s) => some s.length
  | some (JVal.jarr xs) => some xs.length
  | _ => none

/-- Comparison `x.length > n` with an undefined length comparing false. -/
def jsLenGt (v : Option JVal) (n : Nat) : Bool :=
  match jsLengthO v with
  | some m => n < m
  | none => false

/-- Comparison `x.length < n` with an undefined length comparing false. -/
def jsLenLt (v : Option JVal) (n : Nat) : Bool :=
  match jsLengthO v with
  | some m => m < n
  | none => false

/-- Object.keys enumeration together with the values, as iterated by
the content-quality loops: object fields in order, array elements and
string characters under their index keys, nothing for the remaining
primitives. -/
def jsEntries : JVal → List (String × JVal)
  | JVal.jobj fs => fs
  | JVal.jarr xs => (List.range xs.length).zip xs |>.map
      (fun p => (natRepr p.1, p.2))
  | JVal.jstr s => (List.range s.length).zip (s.toList.map
      (fun c => JVal.jstr (String.mk [c]))) |>.map
      (fun p => (natRepr p.1, p.2))
  | _ => []

/-!  The `VALIDATION_PATTERNS` regular expressions, embedded as
decidable string predicates. -/

/-- Pattern `url`: starts with http:// or https:// followed by at
least one character (the regex dot excludes line terminators, so the
first following character must not be one). -/
def urlTest (s : String) : Bool :=
  (strStartsWith s "http://" &&
    (match s.toList.drop 7 with
     | [] => false
     | c :: _ => c != '\n' && c != '\r')) ||
  (strStartsWith s "https://" &&
    (match s.toList.drop 8 with
     | [] => false
     | c :: _ => c != '\n' && c != '\r'))

/-- Character class `[^\s@]`. -/
def emailChar (c : Char) : Bool :=
  !c.isWhitespace && c != '@'

/-- Pattern `email`: `[^\s@]+ @ [^\s@]+ . [^\s@]+` anchored both
ends; equivalently exactly one at-sign, a nonempty whitespace-free
local part, and a domain free of whitespace with an interior dot. -/
def emailTest (s : String) : Bool :=
  let cs := s.toList
  cs.count '@' == 1 &&
  (match splitOnChar '@' s with
   | [a, b] =>
       let al := a.toList
       let bl := b.toList
       !al.isEmpty && al.all emailChar && bl.all emailChar &&
       ((bl.drop 1).dropLast.contains '.')
   | _ => false)

/-- Two decimal digits at the head of `cs`, returning the rest. -/
def twoDigits : List Char → Option (List Char)
  | a :: b :: rest => if a.isDigit && b.isDigit then some rest else none
  | _ => none

/-- Optional time part `T\d\d:\d\d:\d\d(\.\d\d\d)?Z?` of the date
pattern. -/
def dateTimeTail (cs : List Char) : Bool :=
  match cs with
  | [] => true
  | 'T' :: r =>
      (match twoDigits r with
       | some (':' :: r2) =>
           (match twoDigits r2 with
            | some (':' :: r3) =>
                (match twoDigits r3 with
                 | some r4 =>
                     let afterMs :=
                       match r4 with
                       | '.' :: m1 :: m2 :: m3 :: r5 =>
                           if m1.isDigit && m2.isDigit && m3.isDigit then
                             some r5
                           else some r4
                       | _ => some r4
                     (match afterMs with
                      | some [] => true
                      | some ['Z'] => true
                      | _ => false)
                 | none => false)
            | _ => false)
       | _ => false)
  | _ => false

/-- Pattern `date`: strict `YYYY-MM-DD` with an optional
`THH:mm:ss(.SSS)?Z?` tail. -/
def dateTest (s : String) : Bool :=
  let cs := s.toList
  match cs with
  | y1 :: y2 :: y3 :: y4 :: '-' :: m1 :: m2 :: '-' :: d1 :: d2 :: rest =>
      [y1, y2, y3, y4, m1, m2, d1, d2].all Char.isDigit &&
      dateTimeTail rest
  | _ => false

/-- Pattern `phone`: optional plus, a first digit 1-9, then up to
fifteen digits. -/
def phoneTest (s : String) : Bool :=
  let core :=
    match s.toList with
    | '+' :: r => some r
    | r => some r
  match core with
  | some (c :: rest) =>
      c.isDigit && c != '0' && rest.all Char.isDigit && rest.length ≤ 15
  | _ => false

/-- Pattern `imageUrl` (case-insensitive, unanchored start): the
string, or its part before the first question mark, ends in a dot
followed by a recognized image extension. -/
def imageUrlTest (s : String) : Bool :=
  let exts := ["jpg", "jpeg", "png", "gif", "webp", "svg"]
  let low := lowerStr s
  let base :=
    match splitOnChar '?' low with
    | b :: _ :: _ => some b
    | _ => none
  exts.any (fun e => strEndsWith low ("." ++ e)) ||
  (match base with
   | some b => exts.any (fun e => strEndsWith b ("." ++ e))
   | none => false)

/-- Pattern `schemaContext`: `https?://schema.org` with an optional
trailing slash, anchored both ends. -/
def schemaContextTest (s : String) : Bool :=
  s == "http://schema.org" || s == "https://schema.org" ||
  s == "http://schema.org/" || s == "https://schema.org/"

/-- Pattern `postalCode` (case-insensitive): three to ten characters,
each an ASCII letter, digit, whitespace or hyphen. -/
def postalCodeTest (s : String) : Bool :=
  let cs := s.toList
  3 ≤ cs.length && cs.length ≤ 10 &&
  cs.all (fun c => c.isAlpha || c.isDigit || c.isWhitespace || c == '-')

/-- Pattern `price`: digits with an optional fraction of one or two
digits. -/
def priceTest (s : String) : Bool :=
  match splitOnChar '.' s with
  | [a] => !a.toList.isEmpty && a.toList.all Char.isDigit
  | [a, b] =>
      !a.toList.isEmpty && a.toList.all Char.isDigit &&
      b.toList.all Char.isDigit && 1 ≤ b.toList.length &&
      b.toList.length ≤ 2
  | _ => false

/-- Pattern `currency`: exactly three uppercase ASCII letters. -/
def currencyTest (s : String) : Bool :=
  let cs := s.toList
  cs.length == 3 && cs.all (fun c => 'A' ≤ c && c ≤ 'Z')

/-- Required and recommended property lists of one schema type. -/
structure SchemaReq where
  required : List String
  recommended : List String
deriving DecidableEq

/-- The `SCHEMA_REQUIREMENTS` table, verbatim from the source. -/
def SCHEMA_REQUIREMENTS : List (String × SchemaReq) :=
  [("Article",
    ⟨["@context", "@type", "headline"],
     ["author", "datePublished", "dateModified", "publisher",
      "description", "image"]⟩),
   ("Product",
    ⟨["@context", "@type", "name"],
     ["description", "image", "brand", "offers", "aggregateRating",
      "review"]⟩),
   ("Organization",
    ⟨["@context", "@type", "name"],
     ["url", "logo", "description", "address", "contactPoint"]⟩),
   ("Person",
    ⟨["@context", "@type", "name"],
     ["url", "image", "description", "jobTitle", "worksFor"]⟩),
   ("Event",
    ⟨["@context", "@type", "name", "startDate"],
     ["endDate", "location", "description", "organizer", "offers"]⟩),
   ("BreadcrumbList",
    ⟨["@context", "@type", "itemListElement"], ["numberOfItems"]⟩),
   ("FAQPage",
    ⟨["@context", "@type", "mainEntity"], ["name", "description"]⟩),
   ("HowTo",
    ⟨["@context", "@type", "name", "step"],
     ["description", "image", "totalTime", "supply", "tool"]⟩),
   ("Review",
    ⟨["@context", "@type", "reviewRating", "author"],
     ["itemReviewed", "reviewBody", "datePublished"]⟩),
   ("LocalBusiness",
    ⟨["@context", "@type", "name", "address"],
     ["telephone", "url", "openingHours", "priceRange"]⟩),
   ("WebSite",
    ⟨["@context", "@type", "name", "url"],
     ["description", "potentialAction"]⟩)]

/-- Own-property lookup `SCHEMA_REQUIREMENTS[k]`. -/
def lookupReq (k : String) : Option SchemaReq :=
  SCHEMA_REQUIREMENTS.lookup k

/-- The property keys that `SCHEMA_REQUIREMENTS[k]` finds on the
prototype chain when `k` is not an own key of the table: the members
of `Object.prototype`. Each resolves to a truthy value (a function,
or the prototype object itself for the `__proto__` accessor), so the
`||` fallback of source line 204 is not taken and the subsequent
`requirements.required.forEach` throws a TypeError. -/
def objectProtoKeys : List String :=
  ["constructor", "hasOwnProperty", "isPrototypeOf",
   "propertyIsEnumerable", "toLocaleString", "toString", "valueOf",
   "__defineGetter__", "__defineSetter__", "__lookupGetter__",
   "__lookupSetter__", "__proto__"]

/-- Outcome of the JavaScript index `SCHEMA_REQUIREMENTS[k]`: an own
entry of the table, a truthy inherited `Object.prototype` member, or
`undefined`. -/
inductive ReqIndex
  | entry (r : SchemaReq)
  | proto
  | undef
deriving DecidableEq

/-- The JavaScript index `SCHEMA_REQUIREMENTS[k]` including the
prototype chain of the object literal. -/
def reqIndex (k : String) : ReqIndex :=
  match lookupReq k with
  | some r => ReqIndex.entry r
  | none =>
      if objectProtoKeys.contains k then ReqIndex.proto
      else ReqIndex.undef

/-!  The findings, one definition per push site of the source. -/

/-- The finding pushed by the catch-all handler of `validateSchema`. -/
def invalidJsonF : Finding :=
  { sev := Sev.error, message := "Invalid JSON syntax",
    suggestion := some "Check for missing commas, brackets, or quotes" }

def missingContextF : Finding :=
  { sev := Sev.error, message := "Missing @context property",
    suggestion := some "Add \"@context\": \"https://schema.org\" to your schema" }

def nonStandardContextW : Finding :=
  { sev := Sev.warning, message := "Non-standard @context value",
    suggestion :=
      some "Consider using \"https://schema.org\" for better compatibility" }

def missingTypeF : Finding :=
  { sev := Sev.error, message := "Missing @type property",
    suggestion := some "Add \"@type\" property to specify the schema type" }

def missingIdW : Finding :=
  { sev := Sev.warning, message := "Missing @id property",
    suggestion := some "Consider adding \"@id\" for better entity identification" }

/-- The type-mismatch warning; the template literal interpolates the
expected type and the (coerced) document type. -/
def mismatchF (expectedType : String) (schemaType : Option JVal) : Finding :=
  { sev := Sev.warning,
    message := "Schema type mismatch: expected \"" ++ expectedType ++
      "\", got \"" ++ jsToStringO schemaType ++ "\"",
    suggestion := some "Ensure the @type matches the intended schema type" }

def missingRequiredF (p : String) : Finding :=
  { sev := Sev.error, message := "Missing required property: " ++ p,
    path := some p,
    suggestion := some ("Add \"" ++ p ++ "\" property to your schema") }

def missingRecommendedF (p : String) : Finding :=
  { sev := Sev.warning, message := "Missing recommended property: " ++ p,
    path := some p,
    suggestion := some ("Consider adding \"" ++ p ++ "\" for better SEO") }

def headlineLongW : Finding :=
  { sev := Sev.warning, message := "Headline is too long",
    suggestion := some "Keep headlines under 110 characters for better SEO" }

def authorStringW : Finding :=
  { sev := Sev.warning,
    message := "Author should be an object with name property",
    suggestion :=
      some "Use \x7b\"@type\": \"Person\", \"name\": \"Author Name\"\x7d format" }

/-- Shared suggestion text of the four strict-date errors. -/
def dateSuggestion : String :=
  "Use strict ISO 8601 format: \"YYYY-MM-DD\" (e.g., \"2024-01-15\") or " ++
  "\"YYYY-MM-DDTHH:mm:ssZ\" (e.g., \"2024-01-15T14:30:00Z\"). Do not use " ++
  "formats like \"01/15/2024\" or \"January 15, 2024\""

def datePublishedF : Finding :=
  { sev := Sev.error, message := "Invalid datePublished format",
    suggestion := some dateSuggestion }

def dateModifiedF : Finding :=
  { sev := Sev.error, message := "Invalid dateModified format",
    suggestion := some dateSuggestion }

def offersPriceW : Finding :=
  { sev := Sev.warning, message := "Product offers should include price",
    suggestion := some "Add \"price\" property to offers for better rich snippets" }

def productImageF : Finding :=
  { sev := Sev.error, message := "Invalid image URL format",
    suggestion := some "Use a valid HTTP/HTTPS URL for the image" }

def orgLogoF : Finding :=
  { sev := Sev.error, message := "Invalid logo URL format",
    suggestion := some "Use a valid HTTP/HTTPS URL for the logo" }

def orgPhoneW : Finding :=
  { sev := Sev.warning, message := "Invalid phone number format",
    suggestion := some "Use international format: +1234567890" }

def eventStartF : Finding :=
  { sev := Sev.error, message := "Invalid startDate format",
    suggestion := some dateSuggestion }

def eventEndF : Finding :=
  { sev := Sev.error, message := "Invalid endDate format",
    suggestion := some dateSuggestion }

def breadcrumbNameF (i : Nat) : Finding :=
  { sev := Sev.error,
    message := "Breadcrumb item " ++ natRepr (i + 1) ++ " missing name",
    path := some ("itemListElement[" ++ natRepr i ++ "].name"),
    suggestion := some "Add \"name\" property to each breadcrumb item" }

def faqQuestionF (i : Nat) : Finding :=
  { sev := Sev.error, message := "FAQ " ++ natRepr (i + 1) ++ " missing question",
    path := some ("mainEntity[" ++ natRepr i ++ "].question"),
    suggestion := some "Add \"question\" property to each FAQ item" }

def faqAnswerF (i : Nat) : Finding :=
  { sev := Sev.error, message := "FAQ " ++ natRepr (i + 1) ++ " missing answer",
    path := some ("mainEntity[" ++ natRepr i ++ "].answer"),
    suggestion := some "Add \"answer\" property to each FAQ item" }

def howtoNameF (i : Nat) : Finding :=
  { sev := Sev.error,
    message := "HowTo step " ++ natRepr (i + 1) ++ " missing name",
    path := some ("step[" ++ natRepr i ++ "].name"),
    suggestion := some "Add \"name\" property to each step" }

def reviewRatingF : Finding :=
  { sev := Sev.error, message := "Review rating missing required properties",
    suggestion := some "Add \"ratingValue\" and \"bestRating\" to reviewRating" }

def lbAddressW : Finding :=
  { sev := Sev.warning, message := "Address missing recommended properties",
    suggestion := some "Add \"streetAddress\" and \"addressLocality\" to address" }

def invalidUrlF (p : String) : Finding :=
  { sev := Sev.error, message := "Invalid URL format for " ++ p,
    path := some p, suggestion := some "Use a valid HTTP/HTTPS URL" }

def invalidEmailF : Finding :=
  { sev := Sev.error, message := "Invalid email format", path := some "email",
    suggestion := some "Use a valid email address format" }

def imageFormatW (p : String) : Finding :=
  { sev := Sev.warning,
    message := "Image URL may not be a valid image format for " ++ p,
    path := some p,
    suggestion := some "Use JPG, PNG, GIF, WebP, or SVG image formats" }

def priceFmtF (i : Nat) : Finding :=
  { sev := Sev.error,
    message := "Invalid price format in offers[" ++ natRepr i ++ "]",
    path := some ("offers[" ++ natRepr i ++ "].price"),
    suggestion := some "Use numeric format like 19.99" }

def currencyF (i : Nat) : Finding :=
  { sev := Sev.error,
    message := "Invalid currency code in offers[" ++ natRepr i ++ "]",
    path := some ("offers[" ++ natRepr i ++ "].priceCurrency"),
    suggestion := some "Use 3-letter ISO 4217 currency code like USD, EUR, GBP" }

def availabilityW (i : Nat) : Finding :=
  { sev := Sev.warning,
    message := "Non-standard availability value in offers[" ++ natRepr i ++ "]",
    path := some ("offers[" ++ natRepr i ++ "].availability"),
    suggestion := some "Use standard Schema.org availability values" }

def ratingValueW : Finding :=
  { sev := Sev.warning, message := "Rating value outside typical 1-5 range",
    path := some "aggregateRating.ratingValue",
    suggestion := some "Use values between 1 and 5 for better compatibility" }

def bestRatingW : Finding :=
  { sev := Sev.warning, message := "Best rating is not 5",
    path := some "aggregateRating.bestRating",
    suggestion := some "Use 5 as the best rating for standard 5-star systems" }

def postalCodeW : Finding :=
  { sev := Sev.warning, message := "Postal code format may be invalid",
    path := some "address.postalCode",
    suggestion := some "Check postal code format for the specific country" }

def contextPatternW : Finding :=
  { sev := Sev.warning, message := "Non-standard @context value",
    path := some "@context",
    suggestion := some "Use \"https://schema.org\" for better compatibility" }

def emptyValueW (k : String) : Finding :=
  { sev := Sev.warning, message := "Empty value for property: " ++ k,
    path := some k,
    suggestion := some "Provide meaningful content for better SEO" }

def descTooShortW : Finding :=
  { sev := Sev.warning, message := "Description is too short",
    suggestion :=
      some "Write descriptions with at least 50 characters for better SEO" }

def descTooLongW : Finding :=
  { sev := Sev.warning, message := "Description is too long",
    suggestion := some "Keep descriptions under 160 characters for better display" }

def nameLongW : Finding :=
  { sev := Sev.warning, message := "Name is very long",
    suggestion := some "Keep names under 100 characters for better display" }

def headlineSeoW : Finding :=
  { sev := Sev.warning, message := "Headline is too long for optimal SEO",
    suggestion :=
      some "Keep headlines under 110 characters for better search display" }

def dupNameHeadlineI : Finding :=
  { sev := Sev.info, message := "Name and headline are identical",
    suggestion := some "Consider using different values for name and headline" }

def genericContentW (k : String) : Finding :=
  { sev := Sev.warning,
    message := "Generic placeholder content detected in " ++ k,
    path := some k,
    suggestion :=
      some "Replace placeholder content with actual meaningful content" }

def descMayShortW : Finding :=
  { sev := Sev.warning, message := "Description may be too short",
    suggestion := some "Provide more detailed description for better SEO" }

def keywordStuffingW : Finding :=
  { sev := Sev.warning, message := "Potential keyword stuffing detected",
    suggestion :=
      some "Avoid repeating the same words too frequently in descriptions" }

def conflictW (t1 t2 : String) : Finding :=
  { sev := Sev.warning,
    message := "Potential conflict between " ++ t1 ++ " and " ++ t2 ++ " schemas",
    suggestion := some ("These schema types may compete for rich snippet " ++
      "display. Consider prioritizing the most relevant one.") }

def essentialSchemaI : Finding :=
  { sev := Sev.info,
    message := "Consider adding Organization or WebSite schema",
    suggestion := some ("Organization schema helps establish site identity, " ++
      "WebSite schema provides site-level metadata") }

def articleEssentialsW : Finding :=
  { sev := Sev.warning,
    message := "Article schema may be missing essential properties",
    suggestion := some ("Ensure Article schema includes headline, " ++
      "description, author/publisher, and publication dates") }

def productCommercialW : Finding :=
  { sev := Sev.warning,
    message := "Product schema may be missing commercial properties",
    suggestion := some ("Include offers, price, or availability information " ++
      "for better rich snippets") }

def orgContactW : Finding :=
  { sev := Sev.warning,
    message := "Organization schema may be missing contact information",
    suggestion :=
      some "Include complete address and contact point for better local SEO" }

def tooManySchemasW : Finding :=
  { sev := Sev.warning, message := "High number of schema types detected",
    suggestion := some ("Consider limiting to 2-10 relevant schemas per page " ++
      "for optimal SEO performance") }

def addMoreSchemasI : Finding :=
  { sev := Sev.info, message := "Consider adding more schema types",
    suggestion :=
      some "Multiple relevant schemas can enhance search engine understanding" }

/-!  The validators. Each one is embedded as a function returning the
findings it pushes, in push order, per severity array; `threw = true`
records that a JavaScript exception escaped the function after the
listed findings had already been pushed (the source pushes into shared
mutable arrays, so findings pushed before a throw are kept). -/

/-- The contribution of one validator: findings pushed into the three
arrays, plus whether the validator threw. -/
structure Contrib where
  errs : List Finding := []
  warns : List Finding := []
  infos : List Finding := []
  threw : Bool := false
deriving DecidableEq

/-- Sequencing two contributions inside one try-block. -/
def Contrib.app (a b : Contrib) : Contrib :=
  ⟨a.errs ++ b.errs, a.warns ++ b.warns, a.infos ++ b.infos,
   a.threw || b.threw⟩

/-- A conditional push: the pushed findings if the guard holds. -/
def pushIf {α : Type} (c : Bool) (l : List α) : List α :=
  if c then l else []

/-- Undefined-tolerant nested property access `o.k`. -/
def jsGetO (o : Option JVal) (k : String) : Option JVal :=
  match o with
  | some v => jsGet v k
  | none => none

/-- Does the (possibly undefined) value have runtime type string? -/
def asStr : Option JVal → Option String
  | some (JVal.jstr s) => some s
  | _ => none

/-- Strict equality of two possibly-undefined values (used for
`schema.name === schema.headline`). -/
def jsStrictEqO : Option JVal → Option JVal → Bool
  | some a, some b => jsStrictEq a b
  | _, _ => false

/-- Embeds `validateJsonLdStructure` (source lines 147-180): @context, @type
and @id checks. On a null document the very first property access
throws before anything is pushed. -/
def validateJsonLdStructure (schema : JVal) : Contrib :=
  if isNull schema then { threw := true }
  else
    let ctx := jsGet schema "@context"
    { errs :=
        pushIf (!truthyO ctx) [missingContextF] ++
        pushIf (!truthyO (jsGet schema "@type")) [missingTypeF],
      warns :=
        pushIf (truthyO ctx && jsStrictNeStr ctx "https://schema.org")
          [nonStandardContextW] ++
        pushIf (!truthyO (jsGet schema "@id")) [missingIdW] }

/-- Embeds `validateArticle` (source lines 280-317). -/
def validateArticle (schema : JVal) : Contrib :=
  let headline := jsGet schema "headline"
  let author := jsGet schema "author"
  let dp := jsGet schema "datePublished"
  let dm := jsGet schema "dateModified"
  { errs :=
      pushIf (truthyO dp && !dateTest (jsToStringO dp)) [datePublishedF] ++
      pushIf (truthyO dm && !dateTest (jsToStringO dm)) [dateModifiedF],
    warns :=
      pushIf (truthyO headline && jsLenGt headline 110) [headlineLongW] ++
      pushIf (truthyO author && (asStr author).isSome) [authorStringW] }

/-- Embeds `validateProduct` (source lines 322-344). -/
def validateProduct (schema : JVal) : Contrib :=
  let offers := jsGet schema "offers"
  let image := jsGet schema "image"
  { errs :=
      pushIf (match asStr image with
              | some s => s != "" && !urlTest s
              | none => false) [productImageF],
    warns :=
      pushIf (truthyO offers && !truthyO (jsGetO offers "price"))
        [offersPriceW] }

/-- Embeds `validateOrganization` (source lines 349-371). -/
def validateOrganization (schema : JVal) : Contrib :=
  let logo := jsGet schema "logo"
  let cp := jsGet schema "contactPoint"
  let tel := jsGetO cp "telephone"
  { errs :=
      pushIf (match asStr logo with
              | some s => s != "" && !urlTest s
              | none => false) [orgLogoF],
    warns :=
      pushIf (truthyO cp && truthyO tel && !phoneTest (jsToStringO tel))
        [orgPhoneW] }

/-- Embeds `validateEvent` (source lines 376-393). -/
def validateEvent (schema : JVal) : Contrib :=
  let sd := jsGet schema "startDate"
  let ed := jsGet schema "endDate"
  { errs :=
      pushIf (truthyO sd && !dateTest (jsToStringO sd)) [eventStartF] ++
      pushIf (truthyO ed && !dateTest (jsToStringO ed)) [eventEndF] }

/-- The `itemListElement.forEach` of `validateBreadcrumbList`; a null
element throws on the `item.name` access. -/
def breadcrumbLoop : List JVal → Nat → Contrib
  | [], _ => {}
  | item :: rest, i =>
      if isNull item then { threw := true }
      else
        let tail := breadcrumbLoop rest (i + 1)
        { errs := pushIf (!truthyO (jsGet item "name")) [breadcrumbNameF i] ++
            tail.errs,
          threw := tail.threw }

/-- Embeds `validateBreadcrumbList` (source lines 398-411); arrays are always
truthy, so the guard reduces to the Array.isArray test. -/
def validateBreadcrumbList (schema : JVal) : Contrib :=
  match jsGet schema "itemListElement" with
  | some (JVal.jarr xs) => breadcrumbLoop xs 0
  | _ => {}

/-- The `mainEntity.forEach` of `validateFAQPage`. -/
def faqLoop : List JVal → Nat → Contrib
  | [], _ => {}
  | faq :: rest, i =>
      if isNull faq then { threw := true }
      else
        let tail := faqLoop rest (i + 1)
        { errs :=
            pushIf (!truthyO (jsGet faq "question")) [faqQuestionF i] ++
            pushIf (!truthyO (jsGet faq "answer")) [faqAnswerF i] ++
            tail.errs,
          threw := tail.threw }

/-- Embeds `validateFAQPage` (source lines 416-437). -/
def validateFAQPage (schema : JVal) : Contrib :=
  match jsGet schema "mainEntity" with
  | some (JVal.jarr xs) => faqLoop xs 0
  | _ => {}

/-- The `step.forEach` of `validateHowTo`. -/
def howtoLoop : List JVal → Nat → Contrib
  | [], _ => {}
  | step :: rest, i =>
      if isNull step then { threw := true }
      else
        let tail := howtoLoop rest (i + 1)
        { errs := pushIf (!truthyO (jsGet step "name")) [howtoNameF i] ++
            tail.errs,
          threw := tail.threw }

/-- Embeds `validateHowTo` (source lines 442-455). -/
def validateHowTo (schema : JVal) : Contrib :=
  match jsGet schema "step" with
  | some (JVal.jarr xs) => howtoLoop xs 0
  | _ => {}

/-- Embeds `validateReview` (source lines 460-471). -/
def validateReview (schema : JVal) : Contrib :=
  let rr := jsGet schema "reviewRating"
  { errs :=
      pushIf (truthyO rr &&
          (!truthyO (jsGetO rr "ratingValue") ||
           !truthyO (jsGetO rr "bestRating"))) [reviewRatingF] }

/-- Embeds `validateLocalBusiness` (source lines 476-487). -/
def validateLocalBusiness (schema : JVal) : Contrib :=
  let addr := jsGet schema "address"
  { warns :=
      pushIf (truthyO addr &&
          (!truthyO (jsGetO addr "streetAddress") ||
           !truthyO (jsGetO addr "addressLocality"))) [lbAddressW] }

/-- Embeds `validateSpecificTypes` (source lines 239-275): the switch over
the document type. Only a string value can match a case label. -/
def validateSpecificTypes (schema : JVal) (schemaType : Option JVal) :
    Contrib :=
  match schemaType with
  | some (JVal.jstr t) =>
      if t = "Article" then validateArticle schema
      else if t = "Product" then validateProduct schema
      else if t = "Organization" then validateOrganization schema
      else if t = "Event" then validateEvent schema
      else if t = "BreadcrumbList" then validateBreadcrumbList schema
      else if t = "FAQPage" then validateFAQPage schema
      else if t = "HowTo" then validateHowTo schema
      else if t = "Review" then validateReview schema
      else if t = "LocalBusiness" then validateLocalBusiness schema
      else {}
  | _ => {}

/-- Source line 204,
`SCHEMA_REQUIREMENTS[schemaType] || SCHEMA_REQUIREMENTS[expectedType]`:
the fallback to the caller-supplied expected type is taken only when the
first index is `undefined` — an inherited `Object.prototype` member is
truthy and short-circuits the `||` without being a table entry. -/
def resolvedIndex (schema : JVal) (expectedType : String) : ReqIndex :=
  match reqIndex (jsIndexKey (jsGet schema "@type")) with
  | ReqIndex.undef => reqIndex expectedType
  | r => r

/-- The requirement-table entry the required and recommended checks
run against: the own-table entry of the resolved index, if any. -/
def resolvedRequirements (schema : JVal) (expectedType : String) :
    Option SchemaReq :=
  match resolvedIndex schema expectedType with
  | ReqIndex.entry r => some r
  | _ => none

/-- Does the resolved index land on an `Object.prototype` member?  If
so, `requirements` is truthy but `requirements.required` is undefined
and `requirements.required.forEach` throws a TypeError. -/
def resolvedIsProto (schema : JVal) (expectedType : String) : Bool :=
  match resolvedIndex schema expectedType with
  | ReqIndex.proto => true
  | _ => false

/-- Source lines 194-201: the mismatch warning push. -/
def mismatchWarns (schema : JVal) (expectedType : String) : List Finding :=
  let schemaType := jsGet schema "@type"
  pushIf (truthyO schemaType && jsStrictNeStr schemaType expectedType)
    [mismatchF expectedType schemaType]

/-- Source lines 206-217: the missing-required errors of the resolved
requirement entry. -/
def requiredErrs (schema : JVal) (expectedType : String) : List Finding :=
  match resolvedRequirements schema expectedType with
  | some r => (r.required.filter
      (fun p => !truthyO (jsGet schema p))).map missingRequiredF
  | none => []

/-- Source lines 219-229: the missing-recommended warnings of the
resolved requirement entry. -/
def recommendedWarns (schema : JVal) (expectedType : String) : List Finding :=
  match resolvedRequirements schema expectedType with
  | some r => (r.recommended.filter
      (fun p => !truthyO (jsGet schema p))).map missingRecommendedF
  | none => []

/-- Embeds `validateSchemaOrgStructure` (source lines 185-234): the
mismatch warning is pushed first; then the requirement lookup — when
it lands on an inherited `Object.prototype` member the stage throws a
TypeError at `requirements.required.forEach` (keeping the warning
already pushed, running nothing later); otherwise the required and
recommended checks run against the resolved entry, followed by the
type-specific validators. -/
def validateSchemaOrgStructure (schema : JVal) (expectedType : String) :
    Contrib :=
  if resolvedIsProto schema expectedType then
    { warns := mismatchWarns schema expectedType, threw := true }
  else
    let st := validateSpecificTypes schema (jsGet schema "@type")
    { errs := requiredErrs schema expectedType ++ st.errs,
      warns := mismatchWarns schema expectedType ++
        recommendedWarns schema expectedType ++ st.warns,
      infos := st.infos,
      threw := st.threw }

/-- Is the value of property `p` a nonempty string failing the URL
pattern (source lines 495-506)? -/
def urlPropBad (schema : JVal) (p : String) : Bool :=
  match asStr (jsGet schema p) with
  | some s => s != "" && !urlTest s
  | none => false

/-- Is the value of property `p` a nonempty string failing the
image-extension pattern (source lines 520-531)? -/
def imagePropBad (schema : JVal) (p : String) : Bool :=
  match asStr (jsGet schema p) with
  | some s => s != "" && !imageUrlTest s
  | none => false

/-- The availability enum of source line 554. -/
def availabilityValues : List String :=
  ["InStock", "OutOfStock", "PreOrder", "SoldOut", "Discontinued"]

/-- The `offers.forEach` of `validateDataTypes` (source lines
534-563); a null element throws on the `offer.price` access. -/
def offersLoop : List JVal → Nat → Contrib
  | [], _ => {}
  | offer :: rest, i =>
      if isNull offer then { threw := true }
      else
        let p := jsGet offer "price"
        let pc := jsGet offer "priceCurrency"
        let av := jsGet offer "availability"
        let tail := offersLoop rest (i + 1)
        { errs :=
            pushIf (truthyO p && !priceTest (jsToStringO p)) [priceFmtF i] ++
            pushIf (truthyO pc && !currencyTest (jsToStringO pc))
              [currencyF i] ++
            tail.errs,
          warns :=
            pushIf (truthyO av &&
                !(match asStr av with
                  | some s => availabilityValues.contains s
                  | none => false)) [availabilityW i] ++
            tail.warns,
          threw := tail.threw }

/-- Source lines 493-506: the URL-property errors. -/
def urlErrs (schema : JVal) : List Finding :=
  (["url", "image", "logo", "sameAs", "mainEntityOfPage", "item"].filter
    (urlPropBad schema)).map invalidUrlF

/-- Source lines 508-516: the email-format error. -/
def emailErrs (schema : JVal) : List Finding :=
  let email := jsGet schema "email"
  pushIf (truthyO email && !emailTest (jsToStringO email)) [invalidEmailF]

/-- Source lines 518-531: the image-extension warnings. -/
def imageWarns (schema : JVal) : List Finding :=
  (["image", "logo", "photo"].filter (imagePropBad schema)).map imageFormatW

/-- Source lines 533-563: the contribution of the offers loop on the
offers value (nothing unless a truthy array). -/
def offersContrib (schema : JVal) : Contrib :=
  match jsGet schema "offers" with
  | some (JVal.jarr xs) => offersLoop xs 0
  | _ => {}

/-- Source lines 565-585: the aggregateRating warnings. -/
def ratingWarns (schema : JVal) : List Finding :=
  pushIf (truthyO (jsGet schema "aggregateRating")) (
    pushIf (truthyO (jsGetO (jsGet schema "aggregateRating") "ratingValue") &&
        ((match jsGetO (jsGet schema "aggregateRating") "ratingValue" with
          | some v => jsLtNum v 1 || jsGtNum v 5
          | none => false))) [ratingValueW] ++
    pushIf (truthyO (jsGetO (jsGet schema "aggregateRating") "bestRating") &&
        (match jsGetO (jsGet schema "aggregateRating") "bestRating" with
         | some v => jsStrictNeNum v 5
         | none => false)) [bestRatingW])

/-- Source lines 587-595: the postal-code warning. -/
def postalWarns (schema : JVal) : List Finding :=
  let addr := jsGet schema "address"
  let pcv := jsGetO addr "postalCode"
  pushIf (truthyO addr && truthyO pcv &&
    !postalCodeTest (jsToStringO pcv)) [postalCodeW]

/-- Source lines 597-605: the @context-pattern warning. -/
def ctxWarns (schema : JVal) : List Finding :=
  let ctx := jsGet schema "@context"
  pushIf (truthyO ctx && !schemaContextTest (jsToStringO ctx))
    [contextPatternW]

/-- Embeds `validateDataTypes` (source lines 492-606). The checks after the
offers loop run only when the loop did not throw. -/
def validateDataTypes (schema : JVal) : Contrib :=
  if (offersContrib schema).threw then
    { errs := urlErrs schema ++ emailErrs schema ++ (offersContrib schema).errs,
      warns := imageWarns schema ++ (offersContrib schema).warns,
      threw := true }
  else
    { errs := urlErrs schema ++ emailErrs schema ++ (offersContrib schema).errs,
      warns := imageWarns schema ++ (offersContrib schema).warns ++
        ratingWarns schema ++ postalWarns schema ++ ctxWarns schema }

/-- The generic-placeholder phrase list of source line 670. -/
def genericTerms : List String :=
  ["lorem ipsum", "sample text", "placeholder", "coming soon",
   "under construction"]

/-- Case-sensitive substring containment (String.prototype.includes). -/
def strContains (hay needle : String) : Bool :=
  hay.toList.tails.any (fun t => needle.toList.isPrefixOf t)

/-- The keyword-stuffing heuristic of source lines 695-712: split the
lowercased description at whitespace and ask whether some word longer
than three characters occurs more than three times. `splitWs` keeps
empty tokens where the JS `/\s+/` split collapses runs, but empty
tokens never pass the length guard, so the predicates agree. -/
def hasKeywordStuffing (desc : String) : Bool :=
  let words := splitWs (lowerStr desc)
  words.any (fun w => decide (w.length > 3) && decide (words.count w > 3))

/-- Source lines 612-622: one empty-string warning per enumerated
property whose value is a string trimming to empty. -/
def emptyWarns (schema : JVal) : List Finding :=
  ((jsEntries schema).filter
    (fun kv => match kv.2 with
               | JVal.jstr s => trimStr s == ""
               | _ => false)).map (fun kv => emptyValueW kv.1)

/-- Source lines 624-640: the description-length warning chain. -/
def descLenWarns (schema : JVal) : List Finding :=
  if truthyO (jsGet schema "description") then
    if jsLenLt (jsGet schema "description") 50 then [descTooShortW]
    else if jsLenGt (jsGet schema "description") 160 then [descTooLongW]
    else []
  else []

/-- Source lines 642-649: the name-length warning. -/
def nameWarns (schema : JVal) : List Finding :=
  pushIf (truthyO (jsGet schema "name") &&
    jsLenGt (jsGet schema "name") 100) [nameLongW]

/-- Source lines 651-658: the Article headline-length warning of the
content-quality validator; `schemaType` here is the caller-supplied
expected type, not the document type. -/
def headWarns (schema : JVal) (schemaType : String) : List Finding :=
  pushIf (schemaType == "Article" && truthyO (jsGet schema "headline") &&
    jsLenGt (jsGet schema "headline") 110) [headlineSeoW]

/-- Source lines 669-683: one placeholder warning per enumerated
property whose string value contains a generic term. -/
def genericWarns (schema : JVal) : List Finding :=
  ((jsEntries schema).filter
    (fun kv => match kv.2 with
               | JVal.jstr s =>
                   genericTerms.any (fun t => strContains (lowerStr s) t)
               | _ => false)).map (fun kv => genericContentW kv.1)

/-- Source lines 685-692: the very-short-description warning. -/
def shortWarns (schema : JVal) : List Finding :=
  pushIf (truthyO (jsGet schema "description") &&
    jsLenLt (jsGet schema "description") 20) [descMayShortW]

/-- The warnings of `validateContentQuality` pushed before the
keyword-stuffing block, in push order. -/
def contentBaseWarns (schema : JVal) (schemaType : String) : List Finding :=
  emptyWarns schema ++ descLenWarns schema ++ nameWarns schema ++
    headWarns schema schemaType ++ genericWarns schema ++ shortWarns schema

/-- Source lines 660-667: the identical name/headline info. -/
def dupInfos (schema : JVal) : List Finding :=
  let n := jsGet schema "name"
  let h := jsGet schema "headline"
  pushIf (truthyO n && truthyO h && jsStrictEqO n h) [dupNameHeadlineI]

/-- Embeds `validateContentQuality` (source lines 611-713). A truthy
non-string description reaches `description.toLowerCase()` on line 696
and throws, after every earlier warning of this validator was pushed. -/
def validateContentQuality (schema : JVal) (schemaType : String) : Contrib :=
  let base := contentBaseWarns schema schemaType
  match jsGet schema "description" with
  | some (JVal.jstr s) =>
      if s != "" then
        { warns := base ++ pushIf (hasKeywordStuffing s) [keywordStuffingW],
          infos := dupInfos schema }
      else { warns := base, infos := dupInfos schema }
  | some v =>
      if truthy v then
        { warns := base, infos := dupInfos schema, threw := true }
      else { warns := base, infos := dupInfos schema }
  | none => { warns := base, infos := dupInfos schema }

/-- The body of the try-block of `validateSchema` (source lines
99-112): the four pipeline stages in order, stopping at the first
stage that throws but keeping everything pushed up to that point. -/
def runPipeline (doc : JVal) (expectedType : String) : Contrib :=
  if (validateJsonLdStructure doc).threw then validateJsonLdStructure doc
  else if (Contrib.app (validateJsonLdStructure doc)
      (validateSchemaOrgStructure doc expectedType)).threw then
    Contrib.app (validateJsonLdStructure doc)
      (validateSchemaOrgStructure doc expectedType)
  else if (Contrib.app (Contrib.app (validateJsonLdStructure doc)
      (validateSchemaOrgStructure doc expectedType))
      (validateDataTypes doc)).threw then
    Contrib.app (Contrib.app (validateJsonLdStructure doc)
      (validateSchemaOrgStructure doc expectedType)) (validateDataTypes doc)
  else
    Contrib.app (Contrib.app (Contrib.app (validateJsonLdStructure doc)
      (validateSchemaOrgStructure doc expectedType)) (validateDataTypes doc))
      (validateContentQuality doc expectedType)

/-- Embeds `calculateValidationScore` (source lines 890-903). -/
def calculateValidationScore (errors warnings info : List Finding) : Int :=
  let s0 : Int := 100
  let s1 := s0 - errors.length * 20
  let s2 := s1 - warnings.length * 5
  let s3 := s2 - info.length * 1
  max 0 (min 100 s3)

/-- The findings of `validateSchema` after try/catch resolution
(source lines 98-120): a parse failure contributes only the
`invalidJsonF` finding; an exception escaping the pipeline lands in
the same catch-handler and appends `invalidJsonF` to whatever was
already pushed. -/
def schemaContrib (expectedType : String) (parsed : Option JVal) : Contrib :=
  match parsed with
  | none => { errs := [invalidJsonF] }
  | some doc =>
      let r := runPipeline doc expectedType
      if r.threw then { r with errs := r.errs ++ [invalidJsonF] } else r

/-- Embeds `validateSchema` (source lines 93-132). The input text is given by
its JSON.parse outcome: `none` when JSON.parse throws, `some doc` when
it yields `doc`. -/
def validateSchema (expectedType : String) (parsed : Option JVal) :
    ValidationResult :=
  let c : Contrib := schemaContrib expectedType parsed
  { isValid := c.errs.length == 0,
    errors := c.errs,
    warnings := c.warns,
    info := c.infos,
    score := calculateValidationScore c.errs c.warns c.infos }

/-- One element of the batch input: the declared type label together
with the JSON.parse outcome of its schema text (the source parses the
same text wherever it needs the document). -/
structure SchemaInput where
  declaredType : String
  parsed : Option JVal

/-- The conflicting-type pairs of source lines 728-734. -/
def conflictingPairs : List (String × String) :=
  [("Recipe", "HowTo"), ("Product", "Recipe"), ("Event", "Article"),
   ("FAQPage", "Article"), ("Review", "Article")]

/-- The per-document content checks of `validateSchemaRelationships`
(source lines 759-806). Each document is re-parsed inside its own
try-block whose catch silently skips the document, so an unparseable
text, or a null document (on which the first property access throws),
contributes nothing. -/
def relationshipDocWarns (s : SchemaInput) : List Finding :=
  match s.parsed with
  | none => []
  | some JVal.jnull => []
  | some p =>
      pushIf (s.declaredType == "Article")
        (pushIf (!(truthyO (jsGet p "headline") &&
                   truthyO (jsGet p "description") &&
                   (truthyO (jsGet p "author") ||
                    truthyO (jsGet p "publisher")) &&
                   (truthyO (jsGet p "datePublished") ||
                    truthyO (jsGet p "dateModified"))))
          [articleEssentialsW]) ++
      pushIf (s.declaredType == "Product")
        (pushIf (!(truthyO (jsGet p "offers") || truthyO (jsGet p "price") ||
                   truthyO (jsGet p "availability")))
          [productCommercialW]) ++
      pushIf (s.declaredType == "Organization")
        (pushIf (!(truthyO (jsGet p "address") &&
                   truthyO (jsGet p "contactPoint")))
          [orgContactW])

/-- Embeds `validateSchemaRelationships` (source lines 718-824). -/
def validateSchemaRelationships (schemas : List SchemaInput) : Contrib :=
  let schemaTypes := schemas.map (fun s => s.declaredType)
  let conflictWarns :=
    (conflictingPairs.filter
      (fun p => schemaTypes.contains p.1 && schemaTypes.contains p.2)).map
      (fun p => conflictW p.1 p.2)
  let essentialInfos :=
    pushIf (!(schemaTypes.contains "Organization") &&
            !(schemaTypes.contains "WebSite")) [essentialSchemaI]
  let docWarns := (schemas.map relationshipDocWarns).flatten
  let countWarns := pushIf (decide (schemaTypes.length > 10)) [tooManySchemasW]
  let countInfos := pushIf (decide (schemaTypes.length < 2)) [addMoreSchemasI]
  { warns := conflictWarns ++ docWarns ++ countWarns,
    infos := essentialInfos ++ countInfos }

/-- The batch report returned by `validateSchemasForSEO`. -/
structure SeoReport where
  errors : List Finding
  warnings : List Finding
  info : List Finding
  recommendations : List String

/-- Embeds `validateSchemasForSEO` (source lines 829-885): validate each
document, flatten all findings, add relationship findings and build
the recommendation strings. -/
def validateSchemasForSEO (schemas : List SchemaInput) : SeoReport :=
  let validated := schemas.map (fun s => validateSchema s.declaredType s.parsed)
  let docErrs := (validated.map (fun v => v.errors)).flatten
  let docWarns := (validated.map (fun v => v.warnings)).flatten
  let docInfos := (validated.map (fun v => v.info)).flatten
  let rel := validateSchemaRelationships schemas
  let schemaTypes := schemas.map (fun s => s.declaredType)
  let recs :=
    pushIf (schemaTypes.contains "Article" &&
            !(schemaTypes.contains "WebSite"))
      ["Add WebSite schema to establish site-level metadata"] ++
    pushIf (schemaTypes.contains "Product" &&
            !(schemaTypes.contains "Organization"))
      ["Add Organization schema to establish business identity"] ++
    pushIf (schemaTypes.contains "LocalBusiness" &&
            !(schemaTypes.contains "Organization"))
      ["Consider adding Organization schema for business verification"] ++
    pushIf (schemaTypes.contains "FAQPage" &&
            decide (schemaTypes.length < 3))
      ["FAQ pages benefit from additional schemas like Article or WebSite"] ++
    pushIf (!(schemaTypes.any
        (fun t => ["Article", "Product", "Event", "FAQPage"].contains t)))
      ["Consider content-specific schemas like Article, Product, or Event"]
  { errors := docErrs ++ rel.errs,
    warnings := docWarns ++ rel.warns,
    info := docInfos ++ rel.infos,
    recommendations := recs }

/-!  Theorems. First the structural lemmas shared by the claims, then
one theorem per claim (with witness or counterexample where needed). -/

theorem validateSchema_errors (ty : String) (p : Option JVal) :
    (validateSchema ty p).errors = (schemaContrib ty p).errs := rfl

theorem validateSchema_warnings (ty : String) (p : Option JVal) :
    (validateSchema ty p).warnings = (schemaContrib ty p).warns := rfl

theorem validateSchema_info (ty : String) (p : Option JVal) :
    (validateSchema ty p).info = (schemaContrib ty p).infos := rfl

theorem validateSchema_isValid (ty : String) (p : Option JVal) :
    (validateSchema ty p).isValid = ((schemaContrib ty p).errs.length == 0) :=
  rfl

theorem validateSchema_score (ty : String) (p : Option JVal) :
    (validateSchema ty p).score =
      calculateValidationScore (schemaContrib ty p).errs
        (schemaContrib ty p).warns (schemaContrib ty p).infos := rfl

theorem calculateValidationScore_eq (e w i : List Finding) :
    calculateValidationScore e w i =
      max 0 (min 100 (100 - 20 * (e.length : Int) - 5 * (w.length : Int)
        - 1 * (i.length : Int))) := by
  simp only [calculateValidationScore]
  ring_nf

/-- Claim C1: for every result returned by validateSchema, the score
equals max(0, min(100, 100 - 20*|errors| - 5*|warnings| - 1*|info|)),
where the three lengths are those of the finding lists of that same
result. -/
theorem C1_score_formula (ty : String) (p : Option JVal) :
    (validateSchema ty p).score =
      max 0 (min 100 (100 - 20 * ((validateSchema ty p).errors.length : Int)
        - 5 * ((validateSchema ty p).warnings.length : Int)
        - 1 * ((validateSchema ty p).info.length : Int))) := by
  rw [validateSchema_score, validateSchema_errors, validateSchema_warnings,
    validateSchema_info, calculateValidationScore_eq]

/-- Claim C2: for every result returned by validateSchema, isValid
holds exactly when the errors list is empty, independently of the
warnings and info lists. -/
theorem C2_validity_invariant (ty : String) (p : Option JVal) :
    (validateSchema ty p).isValid = true ↔ (validateSchema ty p).errors = [] := by
  rw [validateSchema_isValid, validateSchema_errors]
  simp [List.length_eq_zero]

/-- Claim C3: on any input whose text JSON.parse rejects, the result
is exactly one error finding with message "Invalid JSON syntax", no
warnings, no info, score 80 and isValid false; no other check
contributes anything. -/
theorem C3_parse_failure (ty : String) :
    validateSchema ty none =
      { isValid := false, errors := [invalidJsonF], warnings := [],
        info := [], score := 80 }
    ∧ invalidJsonF.sev = Sev.error
    ∧ invalidJsonF.message = "Invalid JSON syntax" :=
  ⟨rfl, rfl, rfl⟩

/-- Claim C4 is wrong about the code: JSON parse failure is not the
only early abort, and a parse-success input can receive the
"Invalid JSON syntax" finding. The text "null" parses as valid JSON
(to the JavaScript null), yet the first property access inside
validateJsonLdStructure throws, the catch-handler reports
"Invalid JSON syntax", and no check runs. Likewise the object
parsed from the text with description bound to the number 123 runs
the pipeline up to `description.toLowerCase()` inside
validateContentQuality, which throws; the findings already pushed are
kept and "Invalid JSON syntax" is appended, so the remaining
content-quality checks never run on a successfully parsed input. -/
theorem C4_runtime_abort_bug :
    (validateSchema "Article" (some JVal.jnull)).errors = [invalidJsonF]
  ∧ (validateSchema "Article" (some JVal.jnull)).warnings = []
  ∧ (validateSchema "Product"
      (some (JVal.jobj [("description", JVal.jnum 123)]))).errors =
      [missingContextF, missingTypeF, missingRequiredF "@context",
       missingRequiredF "@type", missingRequiredF "name", invalidJsonF] := by
  refine ⟨rfl, rfl, ?_⟩
  decide

theorem mem_pushIf {α : Type} {c : Bool} {l : List α} {x : α}
    (h : x ∈ pushIf c l) : c = true ∧ x ∈ l := by
  cases c with
  | false => simp [pushIf] at h
  | true => exact ⟨rfl, by simpa [pushIf] using h⟩

theorem mem_pushIf_singleton {α : Type} {c : Bool} {x y : α}
    (h : y ∈ pushIf c [x]) : y = x :=
  List.mem_singleton.1 (mem_pushIf h).2

theorem mem_pushIf_of {α : Type} {c : Bool} {l : List α} {x : α}
    (h : c = true) (hx : x ∈ l) : x ∈ pushIf c l := by
  simp [pushIf, h, hx]

theorem mem_app_left {α : Type} {l1 l2 : List α} {x : α}
    (h : x ∈ l1) : x ∈ l1 ++ l2 :=
  List.mem_append.2 (Or.inl h)

theorem mem_app_right {α : Type} {l1 l2 : List α} {x : α}
    (h : x ∈ l2) : x ∈ l1 ++ l2 :=
  List.mem_append.2 (Or.inr h)

theorem count_pushIf_pos {α : Type} [BEq α] {c : Bool} (l : List α) (x : α)
    (h : c = true) : (pushIf c l).count x = l.count x := by
  simp [pushIf, h]

theorem ne_of_sugg {f g : Finding} (h : f.suggestion ≠ g.suggestion) :
    f ≠ g :=
  fun he => h (congrArg Finding.suggestion he)

theorem append_ne_append (p x q y : String) (n : Nat)
    (h1 : n ≤ p.data.length) (h2 : n ≤ q.data.length)
    (h : p.data.take n ≠ q.data.take n) : p ++ x ≠ q ++ y := by
  intro he
  apply h
  have hd : p.data ++ x.data = q.data ++ y.data := by
    rw [← String.data_append, ← String.data_append, he]
  calc p.data.take n
      = (p.data ++ x.data).take n := (List.take_append_of_le_length h1).symm
    _ = (q.data ++ y.data).take n := by rw [hd]
    _ = q.data.take n := List.take_append_of_le_length h2

theorem append_ne_str (p x t : String) (n : Nat)
    (h1 : n ≤ p.data.length) (h2 : n ≤ t.data.length)
    (h : p.data.take n ≠ t.data.take n) : p ++ x ≠ t := by
  intro he
  exact append_ne_append p x t "" n h1 h2 h
    (by rw [he, String.append_empty])

/-- The suggestion of a missing-recommended warning always starts with
"Consider adding", so such a warning never coincides with a finding
whose (concrete) suggestion starts differently. -/
theorem missingRecommendedF_sugg_ne (p t : String)
    (h2 : 4 ≤ t.data.length)
    (h : ("Consider adding \"".data.take 4 ≠ t.data.take 4)) :
    (missingRecommendedF p).suggestion ≠ some t := by
  intro he
  have hs : "Consider adding \"" ++ (p ++ "\" for better SEO") = t := by
    simpa [missingRecommendedF, String.append_assoc] using he
  exact append_ne_str "Consider adding \"" (p ++ "\" for better SEO") t 4
    (by decide) h2 h hs

/-!  Shape lemmas: every warning a validator can push. -/

theorem jsonLd_warns_shape (doc : JVal) :
    ∀ w ∈ (validateJsonLdStructure doc).warns,
      w = nonStandardContextW ∨ w = missingIdW := by
  intro w hw
  by_cases h : isNull doc = true
  · simp [validateJsonLdStructure, h] at hw
  · simp only [validateJsonLdStructure, eq_false_of_ne_true h, Bool.false_eq_true,
      if_false, List.mem_append] at hw
    rcases hw with hw | hw
    · exact Or.inl (mem_pushIf_singleton hw)
    · exact Or.inr (mem_pushIf_singleton hw)

theorem breadcrumbLoop_warns (xs : List JVal) (i : Nat) :
    (breadcrumbLoop xs i).warns = [] := by
  cases xs with
  | nil => rfl
  | cons x r =>
      simp only [breadcrumbLoop]
      split <;> rfl

theorem faqLoop_warns (xs : List JVal) (i : Nat) :
    (faqLoop xs i).warns = [] := by
  cases xs with
  | nil => rfl
  | cons x r =>
      simp only [faqLoop]
      split <;> rfl

theorem howtoLoop_warns (xs : List JVal) (i : Nat) :
    (howtoLoop xs i).warns = [] := by
  cases xs with
  | nil => rfl
  | cons x r =>
      simp only [howtoLoop]
      split <;> rfl

/-- The five warnings the type-specific validators can push. -/
def specificWarns : List Finding :=
  [headlineLongW, authorStringW, offersPriceW, orgPhoneW, lbAddressW]

theorem validateArticle_warns_shape (doc : JVal) :
    ∀ w ∈ (validateArticle doc).warns,
      w = headlineLongW ∨ w = authorStringW := by
  intro w hw
  rcases List.mem_append.1 hw with h | h
  · exact Or.inl (mem_pushIf_singleton h)
  · exact Or.inr (mem_pushIf_singleton h)

theorem validateProduct_warns_shape (doc : JVal) :
    ∀ w ∈ (validateProduct doc).warns, w = offersPriceW := by
  intro w hw
  exact mem_pushIf_singleton hw

theorem validateOrganization_warns_shape (doc : JVal) :
    ∀ w ∈ (validateOrganization doc).warns, w = orgPhoneW := by
  intro w hw
  exact mem_pushIf_singleton hw

theorem validateBreadcrumbList_warns (doc : JVal) :
    (validateBreadcrumbList doc).warns = [] := by
  unfold validateBreadcrumbList
  split
  · exact breadcrumbLoop_warns _ _
  · rfl

theorem validateFAQPage_warns (doc : JVal) :
    (validateFAQPage doc).warns = [] := by
  unfold validateFAQPage
  split
  · exact faqLoop_warns _ _
  · rfl

theorem validateHowTo_warns (doc : JVal) :
    (validateHowTo doc).warns = [] := by
  unfold validateHowTo
  split
  · exact howtoLoop_warns _ _
  · rfl

theorem validateLocalBusiness_warns_shape (doc : JVal) :
    ∀ w ∈ (validateLocalBusiness doc).warns, w = lbAddressW := by
  intro w hw
  exact mem_pushIf_singleton hw

theorem specificTypes_warns_shape (doc : JVal) (st : Option JVal) :
    ∀ w ∈ (validateSpecificTypes doc st).warns, w ∈ specificWarns := by
  intro w hw
  match st with
  | none => simp [validateSpecificTypes] at hw
  | some JVal.jnull => simp [validateSpecificTypes] at hw
  | some (JVal.jbool b) => simp [validateSpecificTypes] at hw
  | some (JVal.jnum q) => simp [validateSpecificTypes] at hw
  | some (JVal.jarr xs) => simp [validateSpecificTypes] at hw
  | some (JVal.jobj fs) => simp [validateSpecificTypes] at hw
  | some (JVal.jstr t) =>
      simp only [validateSpecificTypes] at hw
      repeat' split at hw
      · rcases validateArticle_warns_shape doc w hw with h | h <;>
          simp [specificWarns, h]
      · simp [specificWarns, validateProduct_warns_shape doc w hw]
      · simp [specificWarns, validateOrganization_warns_shape doc w hw]
      · simp [validateEvent] at hw
      · rw [validateBreadcrumbList_warns] at hw
        simp at hw
      · rw [validateFAQPage_warns] at hw
        simp at hw
      · rw [validateHowTo_warns] at hw
        simp at hw
      · simp [validateReview] at hw
      · simp [specificWarns, validateLocalBusiness_warns_shape doc w hw]
      · simp at hw

theorem orgStructure_warns_decomp (doc : JVal) (ty : String)
    (hnp : resolvedIsProto doc ty = false) :
    (validateSchemaOrgStructure doc ty).warns =
      mismatchWarns doc ty ++ recommendedWarns doc ty ++
        (validateSpecificTypes doc (jsGet doc "@type")).warns := by
  unfold validateSchemaOrgStructure
  rw [if_neg (by simp [hnp])]

theorem orgStructure_warns_proto (doc : JVal) (ty : String)
    (hp : resolvedIsProto doc ty = true) :
    (validateSchemaOrgStructure doc ty).warns = mismatchWarns doc ty := by
  unfold validateSchemaOrgStructure
  rw [if_pos hp]

/-- A stage that finished without throwing did not land on a prototype
member at the requirement lookup. -/
theorem orgStructure_ok_not_proto (doc : JVal) (ty : String)
    (h : (validateSchemaOrgStructure doc ty).threw = false) :
    resolvedIsProto doc ty = false := by
  by_cases hp : resolvedIsProto doc ty = true
  · exfalso
    unfold validateSchemaOrgStructure at h
    rw [if_pos hp] at h
    simp at h
  · simpa using hp

/-- A resolved entry means the lookup did not land on a prototype
member. -/
theorem not_proto_of_resolved (doc : JVal) (ty : String) (r : SchemaReq)
    (h : resolvedRequirements doc ty = some r) :
    resolvedIsProto doc ty = false := by
  unfold resolvedRequirements at h
  unfold resolvedIsProto
  cases hidx : resolvedIndex doc ty
  · simp [hidx]
  · simp [hidx] at h
  · simp [hidx]

theorem recommendedWarns_shape (doc : JVal) (ty : String) :
    ∀ w ∈ recommendedWarns doc ty, ∃ p, w = missingRecommendedF p := by
  intro w hw
  unfold recommendedWarns at hw
  split at hw
  · obtain ⟨p, _, hp⟩ := List.mem_map.1 hw
    exact ⟨p, hp.symm⟩
  · simp at hw

theorem offersLoop_warns_shape (xs : List JVal) :
    ∀ i, ∀ w ∈ (offersLoop xs i).warns, ∃ j, w = availabilityW j := by
  induction xs with
  | nil => intro i w hw; simp [offersLoop] at hw
  | cons o rest ih =>
      intro i w hw
      simp only [offersLoop] at hw
      split at hw
      · simp at hw
      · rcases List.mem_append.1 hw with h | h
        · exact ⟨i, mem_pushIf_singleton h⟩
        · exact ih (i + 1) w h

theorem offersContrib_warns_shape (doc : JVal) :
    ∀ w ∈ (offersContrib doc).warns, ∃ j, w = availabilityW j := by
  intro w hw
  unfold offersContrib at hw
  split at hw
  · exact offersLoop_warns_shape _ 0 w hw
  · simp at hw

theorem imageWarns_shape (doc : JVal) :
    ∀ w ∈ imageWarns doc, ∃ p, w = imageFormatW p := by
  intro w hw
  obtain ⟨p, _, hp⟩ := List.mem_map.1 hw
  exact ⟨p, hp.symm⟩

theorem ratingWarns_shape (doc : JVal) :
    ∀ w ∈ ratingWarns doc, w = ratingValueW ∨ w = bestRatingW := by
  intro w hw
  have h1 := (mem_pushIf hw).2
  rcases List.mem_append.1 h1 with h | h
  · exact Or.inl (mem_pushIf_singleton h)
  · exact Or.inr (mem_pushIf_singleton h)

theorem dataTypes_warns_shape (doc : JVal) :
    ∀ w ∈ (validateDataTypes doc).warns,
      (∃ p, w = imageFormatW p) ∨ (∃ j, w = availabilityW j) ∨
      w = ratingValueW ∨ w = bestRatingW ∨ w = postalCodeW ∨
      w = contextPatternW := by
  intro w hw
  unfold validateDataTypes at hw
  split at hw
  · rcases List.mem_append.1 hw with h | h
    · exact Or.inl (imageWarns_shape doc w h)
    · exact Or.inr (Or.inl (offersContrib_warns_shape doc w h))
  · rcases List.mem_append.1 hw with h | h
    · rcases List.mem_append.1 h with h2 | h2
      · rcases List.mem_append.1 h2 with h3 | h3
        · rcases List.mem_append.1 h3 with h4 | h4
          · exact Or.inl (imageWarns_shape doc w h4)
          · exact Or.inr (Or.inl (offersContrib_warns_shape doc w h4))
        · have h4 := ratingWarns_shape doc w h3
          tauto
      · have h3 := mem_pushIf_singleton h2
        tauto
    · have h2 := mem_pushIf_singleton h
      tauto

theorem descLenWarns_shape (doc : JVal) :
    ∀ w ∈ descLenWarns doc, w = descTooShortW ∨ w = descTooLongW := by
  intro w hw
  unfold descLenWarns at hw
  split at hw
  · split at hw
    · exact Or.inl (List.mem_singleton.1 hw)
    · split at hw
      · exact Or.inr (List.mem_singleton.1 hw)
      · simp at hw
  · simp at hw

theorem emptyWarns_shape (doc : JVal) :
    ∀ w ∈ emptyWarns doc, ∃ k, w = emptyValueW k := by
  intro w hw
  obtain ⟨kv, _, hk⟩ := List.mem_map.1 hw
  exact ⟨kv.1, hk.symm⟩

theorem genericWarns_shape (doc : JVal) :
    ∀ w ∈ genericWarns doc, ∃ k, w = genericContentW k := by
  intro w hw
  obtain ⟨kv, _, hk⟩ := List.mem_map.1 hw
  exact ⟨kv.1, hk.symm⟩

theorem contentBaseWarns_shape (doc : JVal) (ty : String) :
    ∀ w ∈ contentBaseWarns doc ty,
      (∃ k, w = emptyValueW k) ∨ (∃ k, w = genericContentW k) ∨
      w = descTooShortW ∨ w = descTooLongW ∨ w = nameLongW ∨
      w = headlineSeoW ∨ w = descMayShortW := by
  intro w hw
  unfold contentBaseWarns at hw
  rcases List.mem_append.1 hw with h | h
  · rcases List.mem_append.1 h with h2 | h2
    · rcases List.mem_append.1 h2 with h3 | h3
      · rcases List.mem_append.1 h3 with h4 | h4
        · rcases List.mem_append.1 h4 with h5 | h5
          · exact Or.inl (emptyWarns_shape doc w h5)
          · have h6 := descLenWarns_shape doc w h5
            tauto
        · have h5 := mem_pushIf_singleton h4
          tauto
      · have h4 := mem_pushIf_singleton h3
        tauto
    · exact Or.inr (Or.inl (genericWarns_shape doc w h2))
  · have h2 := mem_pushIf_singleton h
    tauto

theorem contentQuality_warns_shape (doc : JVal) (ty : String) :
    ∀ w ∈ (validateContentQuality doc ty).warns,
      (∃ k, w = emptyValueW k) ∨ (∃ k, w = genericContentW k) ∨
      w = descTooShortW ∨ w = descTooLongW ∨ w = nameLongW ∨
      w = headlineSeoW ∨ w = descMayShortW ∨ w = keywordStuffingW := by
  intro w hw
  have base : ∀ w ∈ contentBaseWarns doc ty,
      (∃ k, w = emptyValueW k) ∨ (∃ k, w = genericContentW k) ∨
      w = descTooShortW ∨ w = descTooLongW ∨ w = nameLongW ∨
      w = headlineSeoW ∨ w = descMayShortW ∨ w = keywordStuffingW := by
    intro v hv
    have h := contentBaseWarns_shape doc ty v hv
    tauto
  unfold validateContentQuality at hw
  split at hw
  · split at hw
    · rcases List.mem_append.1 hw with h | h
      · exact base w h
      · have h2 := mem_pushIf_singleton h
        tauto
    · exact base w hw
  · split at hw
    · exact base w hw
    · exact base w hw
  · exact base w hw

theorem Contrib.app_errs (a b : Contrib) :
    (Contrib.app a b).errs = a.errs ++ b.errs := rfl

theorem Contrib.app_warns (a b : Contrib) :
    (Contrib.app a b).warns = a.warns ++ b.warns := rfl

theorem Contrib.app_threw (a b : Contrib) :
    (Contrib.app a b).threw = (a.threw || b.threw) := rfl

theorem jsonLd_threw (doc : JVal) (h : isNull doc = false) :
    (validateJsonLdStructure doc).threw = false := by
  simp [validateJsonLdStructure, h]

/-- The warnings of the whole pipeline: always the structural and
schema-org warnings first, followed by a tail drawn from the datatype
and content-quality validators (possibly cut short by a throw). -/
theorem runPipeline_warns_decomp (doc : JVal) (ty : String)
    (h : isNull doc = false) :
    ∃ tail : List Finding,
      (runPipeline doc ty).warns =
        (validateJsonLdStructure doc).warns ++
          (validateSchemaOrgStructure doc ty).warns ++ tail
      ∧ ∀ w ∈ tail, w ∈ (validateDataTypes doc).warns ∨
          w ∈ (validateContentQuality doc ty).warns := by
  unfold runPipeline
  rw [jsonLd_threw doc h]
  simp only [Bool.false_eq_true, if_false, Contrib.app_threw, Contrib.app_warns,
    jsonLd_threw doc h, Bool.false_or]
  by_cases h2 : (validateSchemaOrgStructure doc ty).threw = true
  · rw [if_pos h2]
    exact ⟨[], by simp [Contrib.app_warns], by simp⟩
  · rw [if_neg h2]
    by_cases h3 : (validateDataTypes doc).threw = true
    · rw [if_pos (by simp [h2, h3])]
      refine ⟨(validateDataTypes doc).warns,
        by simp [Contrib.app_warns, List.append_assoc], ?_⟩
      intro w hw
      exact Or.inl hw
    · rw [if_neg (by simp [h2, h3])]
      refine ⟨(validateDataTypes doc).warns ++
        (validateContentQuality doc ty).warns,
        by simp [Contrib.app_warns, List.append_assoc], ?_⟩
      intro w hw
      exact List.mem_append.1 hw

/-- The errors of the whole pipeline, same shape. -/
theorem runPipeline_errs_decomp (doc : JVal) (ty : String)
    (h : isNull doc = false) :
    ∃ tail : List Finding,
      (runPipeline doc ty).errs =
        (validateJsonLdStructure doc).errs ++
          (validateSchemaOrgStructure doc ty).errs ++ tail := by
  unfold runPipeline
  rw [jsonLd_threw doc h]
  simp only [Bool.false_eq_true, if_false, Contrib.app_threw, Contrib.app_errs,
    jsonLd_threw doc h, Bool.false_or]
  by_cases h2 : (validateSchemaOrgStructure doc ty).threw = true
  · rw [if_pos h2]
    exact ⟨[], by simp [Contrib.app_errs]⟩
  · rw [if_neg h2]
    by_cases h3 : (validateDataTypes doc).threw = true
    · rw [if_pos (by simp [h2, h3])]
      exact ⟨(validateDataTypes doc).errs,
        by simp [Contrib.app_errs, List.append_assoc]⟩
    · rw [if_neg (by simp [h2, h3])]
      exact ⟨(validateDataTypes doc).errs ++
        (validateContentQuality doc ty).errs,
        by simp [Contrib.app_errs, List.append_assoc]⟩

theorem schemaContrib_warns_eq (doc : JVal) (ty : String) :
    (schemaContrib ty (some doc)).warns = (runPipeline doc ty).warns := by
  cases h : (runPipeline doc ty).threw <;> simp [schemaContrib, h]

theorem schemaContrib_errs_eq (doc : JVal) (ty : String) :
    (schemaContrib ty (some doc)).errs =
      (runPipeline doc ty).errs ++
        (if (runPipeline doc ty).threw then [invalidJsonF] else []) := by
  cases h : (runPipeline doc ty).threw <;> simp [schemaContrib, h]

/-- When the pipeline finishes without a JavaScript exception it is
exactly the concatenation of its four stages. -/
theorem runPipeline_ok (doc : JVal) (ty : String)
    (h : (runPipeline doc ty).threw = false) :
    runPipeline doc ty =
      Contrib.app (Contrib.app (Contrib.app (validateJsonLdStructure doc)
        (validateSchemaOrgStructure doc ty)) (validateDataTypes doc))
        (validateContentQuality doc ty) := by
  unfold runPipeline at h ⊢
  by_cases h1 : (validateJsonLdStructure doc).threw = true
  · rw [if_pos h1] at h
    exact absurd h (by simp [h1])
  · rw [if_neg h1] at h ⊢
    by_cases h2 : (Contrib.app (validateJsonLdStructure doc)
        (validateSchemaOrgStructure doc ty)).threw = true
    · rw [if_pos h2] at h
      exact absurd h (by simp [h2])
    · rw [if_neg h2] at h ⊢
      by_cases h3 : (Contrib.app (Contrib.app (validateJsonLdStructure doc)
          (validateSchemaOrgStructure doc ty))
          (validateDataTypes doc)).threw = true
      · rw [if_pos h3] at h
        exact absurd h (by simp [h3])
      · rw [if_neg h3]

theorem schemaContrib_ok_eq (doc : JVal) (ty : String)
    (h : (runPipeline doc ty).threw = false) :
    schemaContrib ty (some doc) = runPipeline doc ty := by
  simp [schemaContrib, h]

theorem count_zero_of_ne {l : List Finding} {t : Finding}
    (h : ∀ w ∈ l, w ≠ t) : l.count t = 0 :=
  List.count_eq_zero.2 fun hm => h t hm rfl

theorem mismatchF_sugg (e : String) (s : Option JVal) :
    (mismatchF e s).suggestion =
      some "Ensure the @type matches the intended schema type" := rfl

theorem emptyValueW_sugg (k : String) :
    (emptyValueW k).suggestion =
      some "Provide meaningful content for better SEO" := rfl

theorem genericContentW_sugg (k : String) :
    (genericContentW k).suggestion =
      some "Replace placeholder content with actual meaningful content" := rfl

theorem imageFormatW_sugg (p : String) :
    (imageFormatW p).suggestion =
      some "Use JPG, PNG, GIF, WebP, or SVG image formats" := rfl

theorem availabilityW_sugg (i : Nat) :
    (availabilityW i).suggestion =
      some "Use standard Schema.org availability values" := rfl

/-!  Occurrence counts of the three warnings whose multiplicity the
claims constrain. In the source every warning site carries a fixed
suggestion string, distinct across sites (only the missing-recommended
suggestion embeds a property name), so two warnings from different
sites are never equal. -/

theorem recommended_ne {p : String} {t : Finding}
    (hs : t.suggestion = some "Ensure the @type matches the intended schema type"
      ∨ t.suggestion = some "Keep headlines under 110 characters for better SEO"
      ∨ t.suggestion = some "Keep headlines under 110 characters for better search display") :
    missingRecommendedF p ≠ t := by
  apply ne_of_sugg
  rcases hs with hs | hs | hs <;> rw [hs]
  · exact missingRecommendedF_sugg_ne p _ (by decide) (by decide)
  · exact missingRecommendedF_sugg_ne p _ (by decide) (by decide)
  · exact missingRecommendedF_sugg_ne p _ (by decide) (by decide)

theorem mismatch_count_jsonLd (doc : JVal) (e : String) (s : Option JVal) :
    ((validateJsonLdStructure doc).warns).count (mismatchF e s) = 0 := by
  apply count_zero_of_ne
  intro w hw
  rcases jsonLd_warns_shape doc w hw with h | h <;> subst h <;>
    exact ne_of_sugg (by
      try simp only [mismatchF_sugg, emptyValueW_sugg, genericContentW_sugg,
        imageFormatW_sugg, availabilityW_sugg]
      decide)

theorem mismatch_count_recommended (doc : JVal) (ty e : String)
    (s : Option JVal) :
    (recommendedWarns doc ty).count (mismatchF e s) = 0 := by
  apply count_zero_of_ne
  intro w hw
  obtain ⟨p, hp⟩ := recommendedWarns_shape doc ty w hw
  subst hp
  exact recommended_ne (Or.inl rfl)

theorem mismatch_count_specific (doc : JVal) (st : Option JVal) (e : String)
    (s : Option JVal) :
    ((validateSpecificTypes doc st).warns).count (mismatchF e s) = 0 := by
  apply count_zero_of_ne
  intro w hw
  have h := specificTypes_warns_shape doc st w hw
  simp only [specificWarns, List.mem_cons, List.not_mem_nil, or_false] at h
  rcases h with h | h | h | h | h <;> subst h <;> exact ne_of_sugg (by
      try simp only [mismatchF_sugg, emptyValueW_sugg, genericContentW_sugg,
        imageFormatW_sugg, availabilityW_sugg]
      decide)

theorem mismatch_count_dataTypes (doc : JVal) (e : String) (s : Option JVal) :
    ((validateDataTypes doc).warns).count (mismatchF e s) = 0 := by
  apply count_zero_of_ne
  intro w hw
  rcases dataTypes_warns_shape doc w hw with ⟨p, h⟩ | ⟨j, h⟩ | h | h | h | h <;>
    subst h <;> exact ne_of_sugg (by
      try simp only [mismatchF_sugg, emptyValueW_sugg, genericContentW_sugg,
        imageFormatW_sugg, availabilityW_sugg]
      decide)

theorem mismatch_count_contentQuality (doc : JVal) (ty e : String)
    (s : Option JVal) :
    ((validateContentQuality doc ty).warns).count (mismatchF e s) = 0 := by
  apply count_zero_of_ne
  intro w hw
  rcases contentQuality_warns_shape doc ty w hw with
    ⟨k, h⟩ | ⟨k, h⟩ | h | h | h | h | h | h <;>
    subst h <;> exact ne_of_sugg (by
      try simp only [mismatchF_sugg, emptyValueW_sugg, genericContentW_sugg,
        imageFormatW_sugg, availabilityW_sugg]
      decide)

theorem headlineLong_count_jsonLd (doc : JVal) :
    ((validateJsonLdStructure doc).warns).count headlineLongW = 0 := by
  apply count_zero_of_ne
  intro w hw
  rcases jsonLd_warns_shape doc w hw with h | h <;> subst h <;>
    exact ne_of_sugg (by
      try simp only [mismatchF_sugg, emptyValueW_sugg, genericContentW_sugg,
        imageFormatW_sugg, availabilityW_sugg]
      decide)

theorem headlineLong_count_mismatch (doc : JVal) (ty : String) :
    (mismatchWarns doc ty).count headlineLongW = 0 := by
  apply count_zero_of_ne
  intro w hw
  have h := mem_pushIf_singleton hw
  subst h
  exact ne_of_sugg (by
      try simp only [mismatchF_sugg, emptyValueW_sugg, genericContentW_sugg,
        imageFormatW_sugg, availabilityW_sugg]
      decide)

theorem headlineLong_count_recommended (doc : JVal) (ty : String) :
    (recommendedWarns doc ty).count headlineLongW = 0 := by
  apply count_zero_of_ne
  intro w hw
  obtain ⟨p, hp⟩ := recommendedWarns_shape doc ty w hw
  subst hp
  exact recommended_ne (Or.inr (Or.inl rfl))

theorem headlineLong_count_dataTypes (doc : JVal) :
    ((validateDataTypes doc).warns).count headlineLongW = 0 := by
  apply count_zero_of_ne
  intro w hw
  rcases dataTypes_warns_shape doc w hw with ⟨p, h⟩ | ⟨j, h⟩ | h | h | h | h <;>
    subst h <;> exact ne_of_sugg (by
      try simp only [mismatchF_sugg, emptyValueW_sugg, genericContentW_sugg,
        imageFormatW_sugg, availabilityW_sugg]
      decide)

theorem headlineLong_count_contentQuality (doc : JVal) (ty : String) :
    ((validateContentQuality doc ty).warns).count headlineLongW = 0 := by
  apply count_zero_of_ne
  intro w hw
  rcases contentQuality_warns_shape doc ty w hw with
    ⟨k, h⟩ | ⟨k, h⟩ | h | h | h | h | h | h <;>
    subst h <;> exact ne_of_sugg (by
      try simp only [mismatchF_sugg, emptyValueW_sugg, genericContentW_sugg,
        imageFormatW_sugg, availabilityW_sugg]
      decide)

theorem headlineSeo_count_jsonLd (doc : JVal) :
    ((validateJsonLdStructure doc).warns).count headlineSeoW = 0 := by
  apply count_zero_of_ne
  intro w hw
  rcases jsonLd_warns_shape doc w hw with h | h <;> subst h <;>
    exact ne_of_sugg (by
      try simp only [mismatchF_sugg, emptyValueW_sugg, genericContentW_sugg,
        imageFormatW_sugg, availabilityW_sugg]
      decide)

theorem headlineSeo_count_mismatch (doc : JVal) (ty : String) :
    (mismatchWarns doc ty).count headlineSeoW = 0 := by
  apply count_zero_of_ne
  intro w hw
  have h := mem_pushIf_singleton hw
  subst h
  exact ne_of_sugg (by
      try simp only [mismatchF_sugg, emptyValueW_sugg, genericContentW_sugg,
        imageFormatW_sugg, availabilityW_sugg]
      decide)

theorem headlineSeo_count_recommended (doc : JVal) (ty : String) :
    (recommendedWarns doc ty).count headlineSeoW = 0 := by
  apply count_zero_of_ne
  intro w hw
  obtain ⟨p, hp⟩ := recommendedWarns_shape doc ty w hw
  subst hp
  exact recommended_ne (Or.inr (Or.inr rfl))

theorem headlineSeo_count_specific (doc : JVal) (st : Option JVal) :
    ((validateSpecificTypes doc st).warns).count headlineSeoW = 0 := by
  apply count_zero_of_ne
  intro w hw
  have h := specificTypes_warns_shape doc st w hw
  simp only [specificWarns, List.mem_cons, List.not_mem_nil, or_false] at h
  rcases h with h | h | h | h | h <;> subst h <;> exact ne_of_sugg (by
      try simp only [mismatchF_sugg, emptyValueW_sugg, genericContentW_sugg,
        imageFormatW_sugg, availabilityW_sugg]
      decide)

theorem headlineSeo_count_dataTypes (doc : JVal) :
    ((validateDataTypes doc).warns).count headlineSeoW = 0 := by
  apply count_zero_of_ne
  intro w hw
  rcases dataTypes_warns_shape doc w hw with ⟨p, h⟩ | ⟨j, h⟩ | h | h | h | h <;>
    subst h <;> exact ne_of_sugg (by
      try simp only [mismatchF_sugg, emptyValueW_sugg, genericContentW_sugg,
        imageFormatW_sugg, availabilityW_sugg]
      decide)

theorem count_pushIf_single_ne {c : Bool} {x t : Finding} (h : x ≠ t) :
    (pushIf c [x]).count t = 0 := by
  cases c <;> simp [pushIf, List.count_cons, h, List.count_nil, Ne.symm h]

theorem count_singleton_self (x : Finding) : ([x]).count x = 1 := by
  simp

/-- The mismatch warning is pushed exactly once when the document type
is a truthy value strictly differing from the expected type. -/
theorem mismatch_count_home (doc : JVal) (e : String) (v : JVal)
    (hv : jsGet doc "@type" = some v) (htv : truthy v = true)
    (hne : jsStrictNeStr (some v) e = true) :
    (mismatchWarns doc e).count (mismatchF e (some v)) = 1 := by
  simp only [mismatchWarns, hv]
  rw [count_pushIf_pos _ _ (by simp [truthyO, htv, hne])]
  exact count_singleton_self _

/-- The whole schema-org stage pushes the mismatch warning exactly
once for a truthy strictly-differing document type, whether or not the
requirement lookup lands on a prototype member and aborts the stage
(the warning is pushed before the lookup). -/
theorem mismatch_count_org (doc : JVal) (e : String) (v : JVal)
    (hv : jsGet doc "@type" = some v) (htv : truthy v = true)
    (hne : jsStrictNeStr (some v) e = true) :
    ((validateSchemaOrgStructure doc e).warns).count
      (mismatchF e (some v)) = 1 := by
  have hhome := mismatch_count_home doc e v hv htv hne
  by_cases hp : resolvedIsProto doc e = true
  · rw [orgStructure_warns_proto doc e hp]
    exact hhome
  · have hnp : resolvedIsProto doc e = false := by simpa using hp
    rw [orgStructure_warns_decomp doc e hnp, List.count_append,
      List.count_append, hhome, mismatch_count_recommended,
      mismatch_count_specific]

/-- The per-type Article validator pushes its headline warning exactly
once for an over-long string headline. -/
theorem headlineLong_count_article (doc : JVal) (hl : String)
    (hh : jsGet doc "headline" = some (JVal.jstr hl))
    (hlen : 110 < hl.length) :
    ((validateArticle doc).warns).count headlineLongW = 1 := by
  have hne : hl ≠ "" := by
    intro he
    subst he
    simp at hlen
  simp only [validateArticle, List.count_append, hh]
  rw [count_pushIf_pos _ _
      (by simp [truthyO, truthy, jsLenGt, jsLengthO, hne, hlen]),
    count_singleton_self, count_pushIf_single_ne (by decide)]

theorem contentQuality_count_base (doc : JVal) (ty : String) (t : Finding)
    (hne : t ≠ keywordStuffingW) :
    ((validateContentQuality doc ty).warns).count t =
      (contentBaseWarns doc ty).count t := by
  unfold validateContentQuality
  split
  · split
    · rw [List.count_append, count_pushIf_single_ne (Ne.symm hne), Nat.add_zero]
    · rfl
  · split <;> rfl
  · rfl

theorem headlineSeo_count_empty (doc : JVal) :
    (emptyWarns doc).count headlineSeoW = 0 := by
  apply count_zero_of_ne
  intro w hw
  obtain ⟨k, hk⟩ := emptyWarns_shape doc w hw
  subst hk
  exact ne_of_sugg (by simp only [emptyValueW_sugg]; decide)

theorem headlineSeo_count_generic (doc : JVal) :
    (genericWarns doc).count headlineSeoW = 0 := by
  apply count_zero_of_ne
  intro w hw
  obtain ⟨k, hk⟩ := genericWarns_shape doc w hw
  subst hk
  exact ne_of_sugg (by simp only [genericContentW_sugg]; decide)

theorem headlineSeo_count_descLen (doc : JVal) :
    (descLenWarns doc).count headlineSeoW = 0 := by
  apply count_zero_of_ne
  intro w hw
  rcases descLenWarns_shape doc w hw with h | h <;> subst h <;>
    exact ne_of_sugg (by decide)

/-- The content-quality validator pushes its headline warning exactly
once when the expected type is Article and the string headline is
over-long. -/
theorem headlineSeo_count_contentQuality (doc : JVal) (hl : String)
    (hh : jsGet doc "headline" = some (JVal.jstr hl))
    (hlen : 110 < hl.length) :
    ((validateContentQuality doc "Article").warns).count headlineSeoW = 1 := by
  have hne : hl ≠ "" := by
    intro he
    subst he
    simp at hlen
  rw [contentQuality_count_base doc "Article" headlineSeoW (by decide)]
  unfold contentBaseWarns
  simp only [List.count_append]
  rw [headlineSeo_count_empty, headlineSeo_count_descLen,
    headlineSeo_count_generic]
  have hn : (nameWarns doc).count headlineSeoW = 0 :=
    count_pushIf_single_ne (by decide)
  have hs : (shortWarns doc).count headlineSeoW = 0 :=
    count_pushIf_single_ne (by decide)
  have hhead : (headWarns doc "Article").count headlineSeoW = 1 := by
    simp only [headWarns, hh]
    rw [count_pushIf_pos _ _
      (by simp [truthyO, truthy, jsLenGt, jsLengthO, hne, hlen])]
    exact count_singleton_self _
  omega

theorem orgStructure_errs_decomp (doc : JVal) (ty : String)
    (hnp : resolvedIsProto doc ty = false) :
    (validateSchemaOrgStructure doc ty).errs =
      requiredErrs doc ty ++
        (validateSpecificTypes doc (jsGet doc "@type")).errs := by
  unfold validateSchemaOrgStructure
  rw [if_neg (by simp [hnp])]

theorem runPipeline_stages_ok (doc : JVal) (ty : String)
    (h : (runPipeline doc ty).threw = false) :
    (validateSchemaOrgStructure doc ty).threw = false
  ∧ (validateDataTypes doc).threw = false := by
  rw [runPipeline_ok doc ty h] at h
  simp only [Contrib.app_threw, Bool.or_eq_false_iff] at h
  exact ⟨h.1.1.2, h.1.2⟩

theorem dataTypes_warns_of_ok (doc : JVal)
    (h : (validateDataTypes doc).threw = false) :
    (validateDataTypes doc).warns =
      imageWarns doc ++ (offersContrib doc).warns ++ ratingWarns doc ++
        postalWarns doc ++ ctxWarns doc := by
  unfold validateDataTypes at h ⊢
  by_cases ho : (offersContrib doc).threw = true
  · rw [if_pos ho] at h
    simp at h
  · rw [if_neg ho]

theorem contentQuality_warns_desc_str (doc : JVal) (ty s : String)
    (hd : jsGet doc "description" = some (JVal.jstr s)) (hs : s ≠ "") :
    (validateContentQuality doc ty).warns =
      contentBaseWarns doc ty ++
        pushIf (hasKeywordStuffing s) [keywordStuffingW] := by
  unfold validateContentQuality
  rw [hd]
  simp [hs]

theorem mem_of_lookup {α β : Type} [BEq α] [LawfulBEq α]
    {l : List (α × β)} {k : α} {v : β}
    (h : List.lookup k l = some v) : (k, v) ∈ l := by
  induction l with
  | nil => simp [List.lookup] at h
  | cons a t ih =>
      obtain ⟨a1, a2⟩ := a
      rw [List.lookup] at h
      by_cases hk : (k == a1) = true
      · rw [hk] at h
        have hv : a2 = v := by simpa using h
        have hka : k = a1 := eq_of_beq hk
        subst hv
        subst hka
        exact List.mem_cons_self _ _
      · have hk2 : (k == a1) = false := by simpa using hk
        rw [hk2] at h
        exact List.mem_cons_of_mem _ (ih h)

/-- A missing required property of the resolved entry always yields
its error in the final result (these errors are pushed before any
throwing site of the pipeline). -/
theorem missingRequired_mem (fs : List (String × JVal)) (ty : String)
    (r : SchemaReq) (p : String)
    (hres : resolvedRequirements (JVal.jobj fs) ty = some r)
    (hp : p ∈ r.required)
    (htr : truthyO (jsGet (JVal.jobj fs) p) = false) :
    missingRequiredF p ∈ (validateSchema ty (some (JVal.jobj fs))).errors := by
  rw [validateSchema_errors, schemaContrib_errs_eq]
  obtain ⟨tail, hdec⟩ := runPipeline_errs_decomp (JVal.jobj fs) ty rfl
  rw [hdec, orgStructure_errs_decomp _ _ (not_proto_of_resolved _ _ _ hres)]
  refine mem_app_left (mem_app_left (mem_app_right (mem_app_left ?_)))
  unfold requiredErrs
  rw [hres]
  exact List.mem_map.2 ⟨p, List.mem_filter.2 ⟨hp, by simp [htr]⟩, rfl⟩

/-- Likewise for the missing-recommended warnings. -/
theorem missingRecommended_mem (fs : List (String × JVal)) (ty : String)
    (r : SchemaReq) (p : String)
    (hres : resolvedRequirements (JVal.jobj fs) ty = some r)
    (hp : p ∈ r.recommended)
    (htr : truthyO (jsGet (JVal.jobj fs) p) = false) :
    missingRecommendedF p ∈
      (validateSchema ty (some (JVal.jobj fs))).warnings := by
  rw [validateSchema_warnings, schemaContrib_warns_eq]
  obtain ⟨tail, hdec, _⟩ := runPipeline_warns_decomp (JVal.jobj fs) ty rfl
  rw [hdec, orgStructure_warns_decomp _ _ (not_proto_of_resolved _ _ _ hres)]
  refine mem_app_left (mem_app_right (mem_app_left (mem_app_right ?_)))
  unfold recommendedWarns
  rw [hres]
  exact List.mem_map.2 ⟨p, List.mem_filter.2 ⟨hp, by simp [htr]⟩, rfl⟩

/-- Claim C5 as stated is wrong about the code: an `@type` bound to
the empty string is present and differs from the expected type, yet
the truthiness guard `schemaType &&` skips the mismatch warning, so
none is emitted. -/
theorem C5_counterexample :
    jsGet (JVal.jobj [("@type", JVal.jstr "")]) "@type" =
      some (JVal.jstr "")
  ∧ ("" : String) ≠ "Article"
  ∧ ((validateSchema "Article"
      (some (JVal.jobj [("@type", JVal.jstr "")]))).warnings).count
      (mismatchF "Article" (some (JVal.jstr ""))) = 0
  ∧ ∀ w ∈ (validateSchema "Article"
      (some (JVal.jobj [("@type", JVal.jstr "")]))).warnings,
      w.message ≠ (mismatchF "Article" (some (JVal.jstr ""))).message := by
  refine ⟨rfl, by decide, by decide, by decide⟩

/-- Claim C5 (amended): whenever the document `@type` is truthy and
strictly differs from the expected type, exactly one mismatch warning
is emitted, whatever the subsequent requirement lookup does. The
lookup itself follows JavaScript property access on the table object:
the own entry of the (coerced) document type when there is one;
otherwise, when that index is undefined, the index of the expected
type; a coerced key naming an `Object.prototype` member is truthy
without being a table entry, so `requirements.required.forEach`
throws a TypeError — the pipeline aborts and the result carries the
mislabelled invalid-JSON error (the mismatch warning, pushed before
the lookup, survives). When an entry resolves, the required and
recommended checks run against it. (The original claim required only
presence, not truthiness, of the differing `@type`, and took the
lookup for a plain table lookup with fallback.) -/
theorem C5_type_precedence_amended (fs : List (String × JVal))
    (expectedType : String) :
    (∀ v, jsGet (JVal.jobj fs) "@type" = some v → truthy v = true →
        jsStrictNeStr (some v) expectedType = true →
        ((validateSchema expectedType
          (some (JVal.jobj fs))).warnings).count
          (mismatchF expectedType (some v)) = 1)
  ∧ (∀ r, lookupReq (jsIndexKey (jsGet (JVal.jobj fs) "@type")) = some r →
      resolvedRequirements (JVal.jobj fs) expectedType = some r)
  ∧ (reqIndex (jsIndexKey (jsGet (JVal.jobj fs) "@type")) =
        ReqIndex.undef →
      resolvedIndex (JVal.jobj fs) expectedType = reqIndex expectedType)
  ∧ (resolvedIsProto (JVal.jobj fs) expectedType = true →
      (runPipeline (JVal.jobj fs) expectedType).threw = true
    ∧ invalidJsonF ∈
        (validateSchema expectedType (some (JVal.jobj fs))).errors)
  ∧ (∀ r, resolvedRequirements (JVal.jobj fs) expectedType = some r →
      (∀ p ∈ r.required, truthyO (jsGet (JVal.jobj fs) p) = false →
        missingRequiredF p ∈
          (validateSchema expectedType (some (JVal.jobj fs))).errors)
    ∧ (∀ p ∈ r.recommended, truthyO (jsGet (JVal.jobj fs) p) = false →
        missingRecommendedF p ∈
          (validateSchema expectedType (some (JVal.jobj fs))).warnings)) := by
  refine ⟨?_, ?_, ?_, ?_, ?_⟩
  · intro v hv htv hne
    rw [validateSchema_warnings, schemaContrib_warns_eq]
    obtain ⟨tail, hdec, htail⟩ :=
      runPipeline_warns_decomp (JVal.jobj fs) expectedType rfl
    rw [hdec, List.count_append, List.count_append,
      mismatch_count_jsonLd, mismatch_count_org _ _ _ hv htv hne]
    have htail0 : tail.count (mismatchF expectedType (some v)) = 0 := by
      apply count_zero_of_ne
      intro w hw hwt
      subst hwt
      rcases htail _ hw with h | h
      · exact absurd h
          (List.count_eq_zero.1 (mismatch_count_dataTypes _ _ _))
      · exact absurd h
          (List.count_eq_zero.1 (mismatch_count_contentQuality _ _ _ _))
    omega
  · intro r hr
    simp [resolvedRequirements, resolvedIndex, reqIndex, hr]
  · intro h0
    unfold resolvedIndex
    rw [h0]
  · intro hp
    have horg : (validateSchemaOrgStructure (JVal.jobj fs)
        expectedType).threw = true := by
      unfold validateSchemaOrgStructure
      rw [if_pos hp]
    have hj : (validateJsonLdStructure (JVal.jobj fs)).threw = false :=
      jsonLd_threw _ rfl
    have hrun : (runPipeline (JVal.jobj fs) expectedType).threw = true := by
      unfold runPipeline
      rw [if_neg (by simp [hj]),
        if_pos (by simp [Contrib.app_threw, hj, horg])]
      simp [Contrib.app_threw, hj, horg]
    refine ⟨hrun, ?_⟩
    rw [validateSchema_errors, schemaContrib_errs_eq, hrun]
    simp
  · intro r hres
    exact ⟨fun p hp htr => missingRequired_mem fs expectedType r p hres hp htr,
      fun p hp htr => missingRecommended_mem fs expectedType r p hres hp htr⟩

/-- Witness for the amended C5 at three concrete documents: a FAQPage
declared inside an Article-labelled slot (own-entry resolution, one
mismatch warning, a missing-required error of the FAQPage entry); a
Recipe type with no table entry (fallback to the expected type, still
exactly one mismatch warning); and a `toString` type, whose lookup
lands on `Object.prototype.toString` so the stage throws and the
result is mislabelled invalid JSON, the single mismatch warning
having been pushed before the throw. -/
theorem C5_witness :
    resolvedRequirements (JVal.jobj [("@type", JVal.jstr "FAQPage")])
      "Article" =
      some ⟨["@context", "@type", "mainEntity"], ["name", "description"]⟩
  ∧ ((validateSchema "Article"
      (some (JVal.jobj [("@type", JVal.jstr "FAQPage")]))).warnings).count
      (mismatchF "Article" (some (JVal.jstr "FAQPage"))) = 1
  ∧ missingRequiredF "mainEntity" ∈
      (validateSchema "Article"
        (some (JVal.jobj [("@type", JVal.jstr "FAQPage")]))).errors
  ∧ resolvedIndex (JVal.jobj [("@type", JVal.jstr "Recipe")]) "Article" =
      reqIndex "Article"
  ∧ ((validateSchema "Article"
      (some (JVal.jobj [("@type", JVal.jstr "Recipe")]))).warnings).count
      (mismatchF "Article" (some (JVal.jstr "Recipe"))) = 1
  ∧ (runPipeline (JVal.jobj [("@type", JVal.jstr "toString")])
      "Article").threw = true
  ∧ invalidJsonF ∈ (validateSchema "Article"
      (some (JVal.jobj [("@type", JVal.jstr "toString")]))).errors
  ∧ ((validateSchema "Article"
      (some (JVal.jobj [("@type", JVal.jstr "toString")]))).warnings).count
      (mismatchF "Article" (some (JVal.jstr "toString"))) = 1 := by
  have h1 := C5_type_precedence_amended [("@type", JVal.jstr "FAQPage")]
    "Article"
  have h2 := C5_type_precedence_amended [("@type", JVal.jstr "Recipe")]
    "Article"
  have h3 := C5_type_precedence_amended [("@type", JVal.jstr "toString")]
    "Article"
  have hres : resolvedRequirements
      (JVal.jobj [("@type", JVal.jstr "FAQPage")]) "Article" =
      some ⟨["@context", "@type", "mainEntity"], ["name", "description"]⟩ :=
    h1.2.1 _ rfl
  refine ⟨hres, h1.1 (JVal.jstr "FAQPage") rfl (by decide) (by decide),
    (h1.2.2.2.2 _ hres).1 "mainEntity" (by decide) rfl,
    h2.2.2.1 (by decide),
    h2.1 (JVal.jstr "Recipe") rfl (by decide) (by decide),
    (h3.2.2.2.1 (by decide)).1, (h3.2.2.2.1 (by decide)).2,
    h3.1 (JVal.jstr "toString") rfl (by decide) (by decide)⟩

/-- Claim C6 as stated is wrong about the code: a ratingValue of 0 is
present and lies outside [1,5], yet the truthiness guard
`rating.ratingValue &&` skips the check, so no warning is emitted. -/
theorem C6_counterexample :
    jsGet (JVal.jobj [("aggregateRating",
        JVal.jobj [("ratingValue", JVal.jnum 0)])]) "aggregateRating" =
      some (JVal.jobj [("ratingValue", JVal.jnum 0)])
  ∧ ((0 : Rat) < 1 ∨ 5 < (0 : Rat))
  ∧ ratingValueW ∉ (validateSchema "Product"
      (some (JVal.jobj [("aggregateRating",
        JVal.jobj [("ratingValue", JVal.jnum 0)])]))).warnings := by
  exact ⟨rfl, Or.inl (by norm_num), by decide⟩

/-- Claim C6 (amended): on a document whose pipeline completes without
a JavaScript exception, whenever aggregateRating.ratingValue is a
truthy (nonzero) number outside [1,5] the ratingValue warning is
emitted, and whenever aggregateRating.bestRating is a truthy number
different from 5 the bestRating warning is emitted. (The original
claim required only presence; the code requires truthiness, and an
earlier runtime abort can suppress the datatype checks entirely.) -/
theorem C6_rating_amended (fs rfs : List (String × JVal)) (ty : String)
    (hok : (runPipeline (JVal.jobj fs) ty).threw = false)
    (har : jsGet (JVal.jobj fs) "aggregateRating" = some (JVal.jobj rfs)) :
    (∀ v : Rat, List.lookup "ratingValue" rfs = some (JVal.jnum v) →
      v ≠ 0 → (v < 1 ∨ 5 < v) →
      ratingValueW ∈ (validateSchema ty (some (JVal.jobj fs))).warnings)
  ∧ (∀ v : Rat, List.lookup "bestRating" rfs = some (JVal.jnum v) →
      v ≠ 0 → v ≠ 5 →
      bestRatingW ∈ (validateSchema ty (some (JVal.jobj fs))).warnings) := by
  have hdt := (runPipeline_stages_ok _ _ hok).2
  have hwarns : (validateSchema ty (some (JVal.jobj fs))).warnings =
      (validateJsonLdStructure (JVal.jobj fs)).warns ++
        (validateSchemaOrgStructure (JVal.jobj fs) ty).warns ++
        (validateDataTypes (JVal.jobj fs)).warns ++
        (validateContentQuality (JVal.jobj fs) ty).warns := by
    rw [validateSchema_warnings, schemaContrib_warns_eq,
      runPipeline_ok _ _ hok, Contrib.app_warns, Contrib.app_warns,
      Contrib.app_warns]
  have hnav : ∀ x : Finding, x ∈ ratingWarns (JVal.jobj fs) →
      x ∈ (validateSchema ty (some (JVal.jobj fs))).warnings := by
    intro x hx
    rw [hwarns, dataTypes_warns_of_ok _ hdt]
    exact mem_app_left (mem_app_right (mem_app_left (mem_app_left
      (mem_app_right hx))))
  constructor
  · intro v hv hv0 hrange
    apply hnav
    have hrv : jsGetO (some (JVal.jobj rfs)) "ratingValue" =
        some (JVal.jnum v) := by
      simp [jsGetO, jsGet, hv]
    unfold ratingWarns
    rw [har, hrv]
    refine mem_pushIf_of rfl (mem_app_left
      (mem_pushIf_of ?_ (List.mem_singleton.2 rfl)))
    rcases hrange with h | h <;>
      simp [truthyO, truthy, jsLtNum, jsGtNum, jsToNumber, hv0, h]
  · intro v hv hv0 hv5
    apply hnav
    have hrv : jsGetO (some (JVal.jobj rfs)) "bestRating" =
        some (JVal.jnum v) := by
      simp [jsGetO, jsGet, hv]
    unfold ratingWarns
    rw [har, hrv]
    refine mem_pushIf_of rfl (mem_app_right
      (mem_pushIf_of ?_ (List.mem_singleton.2 rfl)))
    simp [truthyO, truthy, jsStrictNeNum, hv0, hv5]

/-- Witness for the amended C6: ratingValue 6 and bestRating 10 both
draw their warnings. -/
theorem C6_witness :
    ratingValueW ∈ (validateSchema "Product"
      (some (JVal.jobj [("aggregateRating",
        JVal.jobj [("ratingValue", JVal.jnum 6),
          ("bestRating", JVal.jnum 10)])]))).warnings
  ∧ bestRatingW ∈ (validateSchema "Product"
      (some (JVal.jobj [("aggregateRating",
        JVal.jobj [("ratingValue", JVal.jnum 6),
          ("bestRating", JVal.jnum 10)])]))).warnings := by
  have h := C6_rating_amended
    [("aggregateRating", JVal.jobj [("ratingValue", JVal.jnum 6),
      ("bestRating", JVal.jnum 10)])]
    [("ratingValue", JVal.jnum 6), ("bestRating", JVal.jnum 10)]
    "Product" (by decide) rfl
  exact ⟨h.1 6 rfl (by norm_num) (Or.inr (by norm_num)),
    h.2 10 rfl (by norm_num) (by norm_num)⟩

/-- Claim C7 as stated is wrong about the code: a five-character
description should draw the too-short warnings, but a null element
inside offers makes the datatype stage throw, the catch-handler
reports "Invalid JSON syntax", and the content-quality checks never
run. -/
theorem C7_counterexample :
    jsGet (JVal.jobj [("offers", JVal.jarr [JVal.jnull]),
        ("description", JVal.jstr "short")]) "description" =
      some (JVal.jstr "short")
  ∧ ("short".length < 50 ∧ "short".length < 20)
  ∧ descTooShortW ∉ (validateSchema "Product"
      (some (JVal.jobj [("offers", JVal.jarr [JVal.jnull]),
        ("description", JVal.jstr "short")]))).warnings
  ∧ descMayShortW ∉ (validateSchema "Product"
      (some (JVal.jobj [("offers", JVal.jarr [JVal.jnull]),
        ("description", JVal.jstr "short")]))).warnings
  ∧ invalidJsonF ∈ (validateSchema "Product"
      (some (JVal.jobj [("offers", JVal.jarr [JVal.jnull]),
        ("description", JVal.jstr "short")]))).errors := by
  exact ⟨rfl, by decide, by decide, by decide, by decide⟩

/-- Claim C7 (amended): on a document whose pipeline completes without
a JavaScript exception and whose description is a nonempty string, a
length below 50 draws the too-short warning, a length below 20
additionally draws the may-be-too-short warning, and a length above
160 draws the too-long warning. -/
theorem C7_description_amended (fs : List (String × JVal)) (ty s : String)
    (hok : (runPipeline (JVal.jobj fs) ty).threw = false)
    (hd : jsGet (JVal.jobj fs) "description" = some (JVal.jstr s))
    (hs : s ≠ "") :
    (s.length < 50 →
      descTooShortW ∈ (validateSchema ty (some (JVal.jobj fs))).warnings)
  ∧ (s.length < 20 →
      descMayShortW ∈ (validateSchema ty (some (JVal.jobj fs))).warnings)
  ∧ (160 < s.length →
      descTooLongW ∈ (validateSchema ty (some (JVal.jobj fs))).warnings) := by
  have hwarns : (validateSchema ty (some (JVal.jobj fs))).warnings =
      (validateJsonLdStructure (JVal.jobj fs)).warns ++
        (validateSchemaOrgStructure (JVal.jobj fs) ty).warns ++
        (validateDataTypes (JVal.jobj fs)).warns ++
        (validateContentQuality (JVal.jobj fs) ty).warns := by
    rw [validateSchema_warnings, schemaContrib_warns_eq,
      runPipeline_ok _ _ hok, Contrib.app_warns, Contrib.app_warns,
      Contrib.app_warns]
  have hnav : ∀ x : Finding, x ∈ contentBaseWarns (JVal.jobj fs) ty →
      x ∈ (validateSchema ty (some (JVal.jobj fs))).warnings := by
    intro x hx
    rw [hwarns, contentQuality_warns_desc_str _ _ _ hd hs]
    exact mem_app_right (mem_app_left hx)
  refine ⟨?_, ?_, ?_⟩
  · intro hlen
    apply hnav
    unfold contentBaseWarns
    refine mem_app_left (mem_app_left (mem_app_left (mem_app_left
      (mem_app_right ?_))))
    unfold descLenWarns
    rw [hd]
    simp [truthyO, truthy, hs, jsLenLt, jsLengthO, hlen]
  · intro hlen
    apply hnav
    unfold contentBaseWarns
    refine mem_app_right ?_
    unfold shortWarns
    rw [hd]
    apply mem_pushIf_of ?_ (List.mem_singleton.2 rfl)
    simp [truthyO, truthy, hs, jsLenLt, jsLengthO, hlen]
  · intro hlen
    apply hnav
    unfold contentBaseWarns
    refine mem_app_left (mem_app_left (mem_app_left (mem_app_left
      (mem_app_right ?_))))
    unfold descLenWarns
    rw [hd]
    have hnot : ¬ (s.length < 50) := by omega
    simp [truthyO, truthy, hs, jsLenLt, jsLenGt, jsLengthO, hlen, hnot]

/-- Witness for the amended C7: a ten-character description draws
both short-description warnings. -/
theorem C7_witness :
    descTooShortW ∈ (validateSchema "Product"
      (some (JVal.jobj [("description", JVal.jstr "0123456789")]))).warnings
  ∧ descMayShortW ∈ (validateSchema "Product"
      (some (JVal.jobj [("description", JVal.jstr "0123456789")]))).warnings
  ∧ descTooShortW ≠ descMayShortW := by
  have h := C7_description_amended [("description", JVal.jstr "0123456789")]
    "Product" "0123456789" (by decide) rfl (by decide)
  exact ⟨h.1 (by decide), h.2.1 (by decide), by decide⟩

/-- Claim C8 as stated is wrong about the code: with a null element in
offers the pipeline aborts after the per-type Article check, so an
Article with an over-long headline receives only one of its two
headline warnings. -/
theorem C8_counterexample :
    ((validateSchema "Article" (some (JVal.jobj
      [("@type", JVal.jstr "Article"),
       ("headline", JVal.jstr (String.mk (List.replicate 111 'a'))),
       ("offers", JVal.jarr [JVal.jnull])]))).warnings).count
      headlineLongW = 1
  ∧ ((validateSchema "Article" (some (JVal.jobj
      [("@type", JVal.jstr "Article"),
       ("headline", JVal.jstr (String.mk (List.replicate 111 'a'))),
       ("offers", JVal.jarr [JVal.jnull])]))).warnings).count
      headlineSeoW = 0 := by
  exact ⟨by decide, by decide⟩

/-- Claim C8 (amended): on an Article document (document type and
expected type both Article) whose pipeline completes without a
JavaScript exception and whose string headline is longer than 110
characters, exactly two headline warnings are emitted: one by the
per-type Article validator and one by the content-quality validator,
lowering the score by 10 rather than 5. -/
theorem C8_headline_amended (fs : List (String × JVal)) (hl : String)
    (hok : (runPipeline (JVal.jobj fs) "Article").threw = false)
    (htype : jsGet (JVal.jobj fs) "@type" = some (JVal.jstr "Article"))
    (hh : jsGet (JVal.jobj fs) "headline" = some (JVal.jstr hl))
    (hlen : 110 < hl.length) :
    ((validateSchema "Article" (some (JVal.jobj fs))).warnings).count
      headlineLongW = 1
  ∧ ((validateSchema "Article" (some (JVal.jobj fs))).warnings).count
      headlineSeoW = 1 := by
  have hwarns : (validateSchema "Article" (some (JVal.jobj fs))).warnings =
      (validateJsonLdStructure (JVal.jobj fs)).warns ++
        (validateSchemaOrgStructure (JVal.jobj fs) "Article").warns ++
        (validateDataTypes (JVal.jobj fs)).warns ++
        (validateContentQuality (JVal.jobj fs) "Article").warns := by
    rw [validateSchema_warnings, schemaContrib_warns_eq,
      runPipeline_ok _ _ hok, Contrib.app_warns, Contrib.app_warns,
      Contrib.app_warns]
  have hst : validateSpecificTypes (JVal.jobj fs)
      (jsGet (JVal.jobj fs) "@type") = validateArticle (JVal.jobj fs) := by
    rw [htype]
    rfl
  have hnp : resolvedIsProto (JVal.jobj fs) "Article" = false :=
    orgStructure_ok_not_proto _ _ (runPipeline_stages_ok _ _ hok).1
  constructor
  · rw [hwarns, orgStructure_warns_decomp _ _ hnp, hst]
    simp only [List.count_append]
    rw [headlineLong_count_jsonLd, headlineLong_count_mismatch,
      headlineLong_count_recommended,
      headlineLong_count_article _ hl hh hlen,
      headlineLong_count_dataTypes, headlineLong_count_contentQuality]
  · rw [hwarns, orgStructure_warns_decomp _ _ hnp]
    simp only [List.count_append]
    rw [headlineSeo_count_jsonLd, headlineSeo_count_mismatch,
      headlineSeo_count_recommended, headlineSeo_count_specific,
      headlineSeo_count_dataTypes,
      headlineSeo_count_contentQuality _ hl hh hlen]

/-- Witness for the amended C8: a 111-character headline draws both
warnings exactly once. -/
theorem C8_witness :
    ((validateSchema "Article" (some (JVal.jobj
      [("@type", JVal.jstr "Article"),
       ("headline", JVal.jstr (String.mk (List.replicate 111 'a')))]))).warnings).count
      headlineLongW = 1
  ∧ ((validateSchema "Article" (some (JVal.jobj
      [("@type", JVal.jstr "Article"),
       ("headline", JVal.jstr (String.mk (List.replicate 111 'a')))]))).warnings).count
      headlineSeoW = 1 := by
  exact C8_headline_amended
    [("@type", JVal.jstr "Article"),
     ("headline", JVal.jstr (String.mk (List.replicate 111 'a')))]
    (String.mk (List.replicate 111 'a'))
    (by decide) rfl rfl (by decide)

theorem seo_warnings_decomp (schemas : List SchemaInput) :
    (validateSchemasForSEO schemas).warnings =
      (((schemas.map (fun s => validateSchema s.declaredType s.parsed)).map
        (fun v => v.warnings)).flatten) ++
        (validateSchemaRelationships schemas).warns := rfl

theorem relationships_warns_decomp (schemas : List SchemaInput) :
    (validateSchemaRelationships schemas).warns =
      (conflictingPairs.filter
        (fun p => (schemas.map (fun s => s.declaredType)).contains p.1 &&
          (schemas.map (fun s => s.declaredType)).contains p.2)).map
        (fun p => conflictW p.1 p.2) ++
      (schemas.map relationshipDocWarns).flatten ++
      pushIf (decide ((schemas.map (fun s => s.declaredType)).length > 10))
        [tooManySchemasW] := rfl

/-- Claim C9: a batch whose declared types include both members of a
conflicting pair receives the relationship warning naming both types
of the pair. -/
theorem C9_batch_conflicts (schemas : List SchemaInput) (t1 t2 : String)
    (hp : (t1, t2) ∈ conflictingPairs)
    (h1 : t1 ∈ schemas.map (fun s => s.declaredType))
    (h2 : t2 ∈ schemas.map (fun s => s.declaredType)) :
    conflictW t1 t2 ∈ (validateSchemasForSEO schemas).warnings
  ∧ (conflictW t1 t2).message =
      "Potential conflict between " ++ t1 ++ " and " ++ t2 ++ " schemas" := by
  refine ⟨?_, rfl⟩
  rw [seo_warnings_decomp, relationships_warns_decomp]
  refine mem_app_right (mem_app_left (mem_app_left ?_))
  refine List.mem_map.2 ⟨(t1, t2), List.mem_filter.2 ⟨hp, ?_⟩, rfl⟩
  have hc1 : (schemas.map (fun s => s.declaredType)).contains t1 = true := by
    simpa using h1
  have hc2 : (schemas.map (fun s => s.declaredType)).contains t2 = true := by
    simpa using h2
  rw [hc1, hc2]
  rfl

/-- Witness for C9: an Article document next to a FAQPage document
draws the FAQPage/Article conflict warning. -/
theorem C9_witness :
    conflictW "FAQPage" "Article" ∈ (validateSchemasForSEO
      [⟨"Article", some (JVal.jobj [])⟩,
       ⟨"FAQPage", some (JVal.jobj [])⟩]).warnings := by
  exact (C9_batch_conflicts
    [⟨"Article", some (JVal.jobj [])⟩, ⟨"FAQPage", some (JVal.jobj [])⟩]
    "FAQPage" "Article" (by decide) (by decide) (by decide)).1

/-- Claim C10 as stated is wrong about the code: with a null element
in offers, a required property bound to the empty string still draws
its missing-required error (pushed before the abort) but the
empty-value warning of the content-quality stage is never pushed. -/
theorem C10_counterexample :
    missingRequiredF "headline" ∈ (validateSchema "Article"
      (some (JVal.jobj [("@type", JVal.jstr "Article"),
        ("headline", JVal.jstr ""),
        ("offers", JVal.jarr [JVal.jnull])]))).errors
  ∧ emptyValueW "headline" ∉ (validateSchema "Article"
      (some (JVal.jobj [("@type", JVal.jstr "Article"),
        ("headline", JVal.jstr ""),
        ("offers", JVal.jarr [JVal.jnull])]))).warnings := by
  exact ⟨by decide, by decide⟩

/-- Claim C10 (amended): presence tests are truthiness tests — the
values 0, false, null and the empty string all count as absent. On a
document whose pipeline completes without a JavaScript exception, a
required property of the resolved entry bound to the empty string
draws both the missing-required error and the empty-value warning,
and a Review document whose reviewRating.ratingValue is the (falsy)
number 0 draws the combined missing-properties error. -/
theorem C10_truthiness_amended (fs : List (String × JVal)) (ty : String)
    (hok : (runPipeline (JVal.jobj fs) ty).threw = false) :
    (truthy (JVal.jnum 0) = false ∧ truthy (JVal.jbool false) = false
      ∧ truthy JVal.jnull = false ∧ truthy (JVal.jstr "") = false)
  ∧ (∀ r p, resolvedRequirements (JVal.jobj fs) ty = some r →
      p ∈ r.required → List.lookup p fs = some (JVal.jstr "") →
      missingRequiredF p ∈
        (validateSchema ty (some (JVal.jobj fs))).errors
    ∧ emptyValueW p ∈
        (validateSchema ty (some (JVal.jobj fs))).warnings)
  ∧ (∀ rr, jsGet (JVal.jobj fs) "@type" = some (JVal.jstr "Review") →
      jsGet (JVal.jobj fs) "reviewRating" = some (JVal.jobj rr) →
      List.lookup "ratingValue" rr = some (JVal.jnum 0) →
      reviewRatingF ∈ (validateSchema ty (some (JVal.jobj fs))).errors) := by
  have hwarns : (validateSchema ty (some (JVal.jobj fs))).warnings =
      (validateJsonLdStructure (JVal.jobj fs)).warns ++
        (validateSchemaOrgStructure (JVal.jobj fs) ty).warns ++
        (validateDataTypes (JVal.jobj fs)).warns ++
        (validateContentQuality (JVal.jobj fs) ty).warns := by
    rw [validateSchema_warnings, schemaContrib_warns_eq,
      runPipeline_ok _ _ hok, Contrib.app_warns, Contrib.app_warns,
      Contrib.app_warns]
  refine ⟨⟨rfl, rfl, rfl, rfl⟩, ?_, ?_⟩
  · intro r p hres hp hpv
    have htr : truthyO (jsGet (JVal.jobj fs) p) = false := by
      simp [jsGet, hpv, truthyO, truthy]
    refine ⟨missingRequired_mem fs ty r p hres hp htr, ?_⟩
    have hbase : emptyValueW p ∈ emptyWarns (JVal.jobj fs) := by
      unfold emptyWarns
      refine List.mem_map.2 ⟨(p, JVal.jstr ""), List.mem_filter.2 ⟨?_, ?_⟩, rfl⟩
      · exact mem_of_lookup hpv
      · simp [trimStr]
    rw [hwarns]
    apply mem_app_right
    have hcq : ∀ x : Finding, x ∈ contentBaseWarns (JVal.jobj fs) ty →
        x ∈ (validateContentQuality (JVal.jobj fs) ty).warns := by
      intro x hx
      unfold validateContentQuality
      split
      · split
        · exact mem_app_left hx
        · exact hx
      · split
        · exact hx
        · exact hx
      · exact hx
    apply hcq
    unfold contentBaseWarns
    exact mem_app_left (mem_app_left (mem_app_left (mem_app_left
      (mem_app_left hbase))))
  · intro rr htype hrr hrv
    rw [validateSchema_errors, schemaContrib_errs_eq]
    obtain ⟨tail, hdec⟩ := runPipeline_errs_decomp (JVal.jobj fs) ty rfl
    rw [hdec, orgStructure_errs_decomp _ _
      (orgStructure_ok_not_proto _ _ (runPipeline_stages_ok _ _ hok).1)]
    refine mem_app_left (mem_app_left (mem_app_right (mem_app_right ?_)))
    rw [htype]
    show reviewRatingF ∈ (validateReview (JVal.jobj fs)).errs
    unfold validateReview
    have hc : (truthyO (jsGet (JVal.jobj fs) "reviewRating") &&
        (!truthyO (jsGetO (jsGet (JVal.jobj fs) "reviewRating")
            "ratingValue") ||
         !truthyO (jsGetO (jsGet (JVal.jobj fs) "reviewRating")
            "bestRating"))) = true := by
      rw [hrr]
      have : jsGetO (some (JVal.jobj rr)) "ratingValue" =
          some (JVal.jnum 0) := by simp [jsGetO, jsGet, hrv]
      rw [this]
      simp [truthyO, truthy]
    exact mem_pushIf_of hc (List.mem_singleton.2 rfl)

/-- Witness for the amended C10: a Review with an empty-string author
and a zero ratingValue. -/
theorem C10_witness :
    missingRequiredF "author" ∈ (validateSchema "Review"
      (some (JVal.jobj [("@type", JVal.jstr "Review"),
        ("author", JVal.jstr ""),
        ("reviewRating", JVal.jobj [("ratingValue", JVal.jnum 0)])]))).errors
  ∧ emptyValueW "author" ∈ (validateSchema "Review"
      (some (JVal.jobj [("@type", JVal.jstr "Review"),
        ("author", JVal.jstr ""),
        ("reviewRating", JVal.jobj [("ratingValue", JVal.jnum 0)])]))).warnings
  ∧ reviewRatingF ∈ (validateSchema "Review"
      (some (JVal.jobj [("@type", JVal.jstr "Review"),
        ("author", JVal.jstr ""),
        ("reviewRating", JVal.jobj [("ratingValue", JVal.jnum 0)])]))).errors := by
  have h := C10_truthiness_amended
    [("@type", JVal.jstr "Review"), ("author", JVal.jstr ""),
     ("reviewRating", JVal.jobj [("ratingValue", JVal.jnum 0)])]
    "Review" (by decide)
  have h2 := h.2.1 ⟨["@context", "@type", "reviewRating", "author"],
    ["itemReviewed", "reviewBody", "datePublished"]⟩ "author" rfl
    (by decide) rfl
  exact ⟨h2.1, h2.2, h.2.2 [("ratingValue", JVal.jnum 0)] rfl rfl rfl⟩

end SchemaValidation
